import Mathlib

/-!
# LACGFP8 reaction network model (libStochMod, `src/lacgfp8.c`)

A shallow embedding of the four model operations of `lacgfp8.c` and of the
GSL containers they work on.

* A `gsl_vector` is modelled by the sequence of its `size` entries.  The
  operations are embedded twice: with the C `double` entries read as exact
  rationals (no rounding, no overflow), for the properties that are about
  exact values, and with IEEE 754 double arithmetic
  (`lacgfp8_propensity_eval_double`, `lacgfp8_state_update_double`), for the
  properties that rounding or overflow can break.
* A `gsl_matrix` is modelled by its two dimensions and its entries in
  row-major order.
* A C function that mutates an argument in place and returns an `int` status
  becomes a function returning the status together with the new value of the
  argument.  The diagnostic lines written to `stderr` are not modelled.
* A `gsl_rng` is modelled by an explicit source state and a draw function.
-/

namespace LacGfp8

/-! ## GSL containers and status codes -/

/-- Status `GSL_SUCCESS` of `gsl_errno.h`. -/
def GSL_SUCCESS : Int := 0

/-- Status `GSL_EFAILED` ("generic failure") of `gsl_errno.h`. -/
def GSL_EFAILED : Int := 5

/-- Entries of a `gsl_vector`, in index order; `size` is the length. -/
abbrev gsl_vector := List ℚ

/-- Field `size` of a `gsl_vector`. -/
def gsl_vector.size (v : gsl_vector) : Nat := v.length

/-- Library call `gsl_vector_get (v, i)`. -/
def gsl_vector_get (v : gsl_vector) (i : Nat) : ℚ := v.getD i 0

/-- Library call `gsl_vector_set (v, i, x)`. -/
def gsl_vector_set (v : gsl_vector) (i : Nat) (x : ℚ) : gsl_vector := v.set i x

/-- A `gsl_matrix`: `size1` rows, `size2` columns, entries in row-major order. -/
structure gsl_matrix where
  size1 : Nat
  size2 : Nat
  data : List ℚ
  wf : data.length = size1 * size2
deriving DecidableEq

/-- Library call `gsl_matrix_get (m, i, j)`. -/
def gsl_matrix_get (m : gsl_matrix) (i j : Nat) : ℚ := m.data.getD (i * m.size2 + j) 0

/-- Library call `gsl_matrix_set_all (m, x)`: every entry becomes `x`. -/
def gsl_matrix_set_all (m : gsl_matrix) (x : ℚ) : gsl_matrix :=
  { m with data := m.data.map (fun _ => x), wf := by rw [List.length_map]; exact m.wf }

/-- Library call `gsl_matrix_set (m, i, j, x)`. -/
def gsl_matrix_set (m : gsl_matrix) (i j : Nat) (x : ℚ) : gsl_matrix :=
  { m with data := m.data.set (i * m.size2 + j) x, wf := by rw [List.length_set]; exact m.wf }

/-! ## Dimensions (`#define N 8` ... `#define P 1`) -/

/-- Number of species. -/
def N : Nat := 8
/-- Number of reactions. -/
def R : Nat := 15
/-- Number of parameters. -/
def L : Nat := 15
/-- Number of inputs. -/
def Z : Nat := 1
/-- Number of outputs. -/
def P : Nat := 1

/-! ## The four operations -/

/-- Propensity evaluation, `lacgfp8_propensity_eval (X, params, prop)`:
the status and the propensity buffer after the call, the sums and products
taken as exact (no rounding, no overflow); `lacgfp8_propensity_eval_double`
is the same function in double arithmetic. -/
def lacgfp8_propensity_eval (X params prop : gsl_vector) : Int × gsl_vector :=
  if X.size ≠ N ∨ params.size ≠ L + Z ∨ prop.size ≠ R then
    (GSL_EFAILED, prop)
  else
    let X1 := gsl_vector_get X 0
    let X2 := gsl_vector_get X 1
    let X3 := gsl_vector_get X 2
    let X4 := gsl_vector_get X 3
    let X5 := gsl_vector_get X 4
    let X6 := gsl_vector_get X 5
    let X7 := gsl_vector_get X 6
    let X8 := gsl_vector_get X 7
    let k1 := gsl_vector_get params 0
    let k2 := gsl_vector_get params 1
    let k3 := gsl_vector_get params 2
    let k4 := gsl_vector_get params 3
    let k5 := gsl_vector_get params 4
    let k6 := gsl_vector_get params 5
    let k7 := gsl_vector_get params 6
    let k8 := gsl_vector_get params 7
    let k9 := gsl_vector_get params 8
    let k10 := gsl_vector_get params 9
    let k11 := gsl_vector_get params 10
    let k12 := gsl_vector_get params 11
    let k13 := gsl_vector_get params 12
    let k14 := gsl_vector_get params 13
    let k15 := gsl_vector_get params 14
    let u1 := gsl_vector_get params 15
    let prop := gsl_vector_set prop 0 k1
    let prop := gsl_vector_set prop 1 (k2 * X1)
    let prop := gsl_vector_set prop 2 (k3 * X1)
    let prop := gsl_vector_set prop 3 ((k4 + k5 * u1) * X2)
    let prop := gsl_vector_set prop 4 (k6 * X2 * (X2 - 1))
    let prop := gsl_vector_set prop 5 (k7 * X3)
    let prop := gsl_vector_set prop 6 (k8 * X3 * X4)
    let prop := gsl_vector_set prop 7 (k9 * X5)
    let prop := gsl_vector_set prop 8 (k10 * X4)
    let prop := gsl_vector_set prop 9 (k11 * X5)
    let prop := gsl_vector_set prop 10 (k12 * X6)
    let prop := gsl_vector_set prop 11 (k13 * X6)
    let prop := gsl_vector_set prop 12 (k14 * X7)
    let prop := gsl_vector_set prop 13 (k15 * X7)
    let prop := gsl_vector_set prop 14 (k14 * X8)
    (GSL_SUCCESS, prop)

/-- State update, `lacgfp8_state_update (X, rxnid)`: the status and the state
vector after the call, the sums taken as exact (no rounding);
`lacgfp8_state_update_double` is the same function in double arithmetic. -/
def lacgfp8_state_update (X : gsl_vector) (rxnid : Nat) : Int × gsl_vector :=
  if X.size ≠ N then
    (GSL_EFAILED, X)
  else if rxnid ≥ R then
    (GSL_EFAILED, X)
  else
    let X :=
      match rxnid with
      | 0 => gsl_vector_set X 0 (gsl_vector_get X 0 + 1)
      | 1 => gsl_vector_set X 0 (gsl_vector_get X 0 + (-1))
      | 2 => gsl_vector_set X 1 (gsl_vector_get X 1 + 1)
      | 3 => gsl_vector_set X 1 (gsl_vector_get X 1 + (-1))
      | 4 =>
        let X := gsl_vector_set X 1 (gsl_vector_get X 1 + (-2))
        gsl_vector_set X 2 (gsl_vector_get X 2 + 1)
      | 5 =>
        let X := gsl_vector_set X 1 (gsl_vector_get X 1 + 2)
        gsl_vector_set X 2 (gsl_vector_get X 2 + (-1))
      | 6 =>
        let X := gsl_vector_set X 2 (gsl_vector_get X 2 + (-1))
        let X := gsl_vector_set X 3 (gsl_vector_get X 3 + (-1))
        gsl_vector_set X 4 (gsl_vector_get X 4 + 1)
      | 7 =>
        let X := gsl_vector_set X 2 (gsl_vector_get X 2 + 1)
        let X := gsl_vector_set X 3 (gsl_vector_get X 3 + 1)
        gsl_vector_set X 4 (gsl_vector_get X 4 + (-1))
      | 8 => gsl_vector_set X 5 (gsl_vector_get X 5 + 1)
      | 9 => gsl_vector_set X 5 (gsl_vector_get X 5 + 1)
      | 10 => gsl_vector_set X 5 (gsl_vector_get X 5 + (-1))
      | 11 => gsl_vector_set X 6 (gsl_vector_get X 6 + 1)
      | 12 => gsl_vector_set X 6 (gsl_vector_get X 6 + (-1))
      | 13 =>
        let X := gsl_vector_set X 6 (gsl_vector_get X 6 + (-1))
        gsl_vector_set X 7 (gsl_vector_get X 7 + 1)
      | 14 => gsl_vector_set X 7 (gsl_vector_get X 7 + (-1))
      | _ => X
    (GSL_SUCCESS, X)

/-- Random source: `Rng σ` is the draw `gsl_rng_uniform_int (r, n)` of a
generator whose state has type `σ`; it gives the drawn integer and the
generator state after the draw. -/
abbrev Rng (σ : Type) := σ → Nat → Nat × σ

/-- Initial-state sampling, `lacgfp8_initial_conditions (X0, r)`: the status,
the vector after the call and the state of the random source after the call.
The two draws of the entry of index 3 are operands of one sum; they have the
same bound and the sum is symmetric, so the order in which a compiler
sequences them does not change the result.  A source that honours its bound
draws values below 101 there, so the `unsigned long` sum is at most 201 and
does not wrap; it is a sum of naturals here. -/
def lacgfp8_initial_conditions {σ : Type} (draw : Rng σ) (X0 : gsl_vector) (r : σ) :
    Int × gsl_vector × σ :=
  if X0.size ≠ N then
    (GSL_EFAILED, X0, r)
  else
    let (d1, r) := draw r 6
    let X0 := gsl_vector_set X0 0 (d1 : ℚ)
    let (d2, r) := draw r 11
    let X0 := gsl_vector_set X0 1 (d2 : ℚ)
    let X0 := gsl_vector_set X0 2 0
    let (d3, r) := draw r 101
    let (d4, r) := draw r 101
    let X0 := gsl_vector_set X0 3 ((1 + d3 + d4 : Nat) : ℚ)
    let X0 := gsl_vector_set X0 4 0
    let X0 := gsl_vector_set X0 5 0
    let X0 := gsl_vector_set X0 6 0
    let X0 := gsl_vector_set X0 7 0
    (GSL_SUCCESS, X0, r)

/-- Output function, `lacgfp8_output (out)`: the status and the matrix after
the call. -/
def lacgfp8_output (out : gsl_matrix) : Int × gsl_matrix :=
  if out.size1 ≠ P ∨ out.size2 ≠ N then
    (GSL_EFAILED, out)
  else
    let out := gsl_matrix_set_all out 0
    let out := gsl_matrix_set out 0 7 1
    (GSL_SUCCESS, out)

/-! ## The documented reaction network (comment block `=== REACTIONS ===`) -/

/-- One line of the reaction table: the species on the left of the arrow,
the species on the right of it (0-based indices into the state vector, a
species written twice is listed twice) and the rate constant over the arrow
as a function of the parameter vector. -/
structure Reaction where
  reactants : List Nat
  products : List Nat
  rate : gsl_vector → ℚ

/-- The fifteen lines of the reaction table, reaction `r + 1` at index `r`. -/
def REACTIONS : List Reaction :=
  [ ⟨[], [0], fun p => gsl_vector_get p 0⟩,
    ⟨[0], [], fun p => gsl_vector_get p 1⟩,
    ⟨[0], [0, 1], fun p => gsl_vector_get p 2⟩,
    ⟨[1], [], fun p => gsl_vector_get p 3 + gsl_vector_get p 4 * gsl_vector_get p 15⟩,
    ⟨[1, 1], [2], fun p => gsl_vector_get p 5⟩,
    ⟨[2], [1, 1], fun p => gsl_vector_get p 6⟩,
    ⟨[2, 3], [4], fun p => gsl_vector_get p 7⟩,
    ⟨[4], [2, 3], fun p => gsl_vector_get p 8⟩,
    ⟨[3], [3, 5], fun p => gsl_vector_get p 9⟩,
    ⟨[4], [4, 5], fun p => gsl_vector_get p 10⟩,
    ⟨[5], [], fun p => gsl_vector_get p 11⟩,
    ⟨[5], [5, 6], fun p => gsl_vector_get p 12⟩,
    ⟨[6], [], fun p => gsl_vector_get p 13⟩,
    ⟨[6], [7], fun p => gsl_vector_get p 14⟩,
    ⟨[7], [], fun p => gsl_vector_get p 13⟩ ]

/-- The reaction with no species and rate 0, used for an index off the table. -/
def Reaction.null : Reaction := ⟨[], [], fun _ => 0⟩

/-- Net change of every species when the table's reaction `r + 1` fires once:
copies produced minus copies consumed. -/
def tableDelta (r : Nat) : List ℚ :=
  (List.range N).map fun i =>
    (((REACTIONS.getD r Reaction.null).products.count i : Int) -
      ((REACTIONS.getD r Reaction.null).reactants.count i : Int) : Int)

/-- The change of the state that the contract of state update lists for every
reaction index (the zero change for an index off the list). -/
def listedDelta : Nat → List ℚ
  | 0 => [1, 0, 0, 0, 0, 0, 0, 0]
  | 1 => [-1, 0, 0, 0, 0, 0, 0, 0]
  | 2 => [0, 1, 0, 0, 0, 0, 0, 0]
  | 3 => [0, -1, 0, 0, 0, 0, 0, 0]
  | 4 => [0, -2, 1, 0, 0, 0, 0, 0]
  | 5 => [0, 2, -1, 0, 0, 0, 0, 0]
  | 6 => [0, 0, -1, -1, 1, 0, 0, 0]
  | 7 => [0, 0, 1, 1, -1, 0, 0, 0]
  | 8 => [0, 0, 0, 0, 0, 1, 0, 0]
  | 9 => [0, 0, 0, 0, 0, 1, 0, 0]
  | 10 => [0, 0, 0, 0, 0, -1, 0, 0]
  | 11 => [0, 0, 0, 0, 0, 0, 1, 0]
  | 12 => [0, 0, 0, 0, 0, 0, -1, 0]
  | 13 => [0, 0, 0, 0, 0, 0, -1, 1]
  | 14 => [0, 0, 0, 0, 0, 0, 0, -1]
  | _ => [0, 0, 0, 0, 0, 0, 0, 0]

/-- Entrywise sum of a state and a change of state. -/
def vecAdd (X d : gsl_vector) : gsl_vector := List.zipWith (fun x y => x + y) X d

/-- Modelled from the spec: the linear map from the full state to the observed
quantities that the output matrix stands for (the simulation engine applies
it, `lacgfp8.c` only fills the matrix): the product of the matrix with the
state vector, one entry for every row of the matrix. -/
def project (m : gsl_matrix) (X : gsl_vector) : List ℚ :=
  (List.range m.size1).map fun i =>
    ((List.range m.size2).map fun j => gsl_matrix_get m i j * gsl_vector_get X j).sum

/-- A random source reading its draws off a list: a draw with bound `n`
returns the head of the list reduced modulo `n`. -/
def listRng : Rng (List Nat) := fun s n => (s.headD 0 % n, s.tail)

/-- A random source that also keeps the list of the bounds it was asked for,
the latest last. -/
def logged {σ : Type} (draw : Rng σ) : Rng (σ × List Nat) :=
  fun s n => ((draw s.1 n).1, ((draw s.1 n).2, s.2 ++ [n]))

/-- Every draw of the source lies below its bound. -/
def InRange {σ : Type} (draw : Rng σ) : Prop :=
  ∀ (s : σ) (n : Nat), 0 < n → (draw s n).1 < n

/-- The 1-by-8 matrix with entry (0,7) equal to 1 and every other entry 0. -/
def selectorRow : gsl_matrix := ⟨1, 8, [0, 0, 0, 0, 0, 0, 0, 1], by rfl⟩

/-! ## Model registration -/

/-- Modelled from the spec: the model descriptor `stochmod` declared in
`stochmod.h` (not among the sources): the four operation handles, the five
dimensional constants and the human-readable name that `lacgfp8_mod_setup`
assigns.  The handle of initial-state sampling takes the draw of the random
source it is called with. -/
structure stochmod (σ : Type) where
  propensity : gsl_vector → gsl_vector → gsl_vector → Int × gsl_vector
  update : gsl_vector → Nat → Int × gsl_vector
  initial : Rng σ → gsl_vector → σ → Int × gsl_vector × σ
  output : gsl_matrix → Int × gsl_matrix
  nspecies : Nat
  nrxns : Nat
  nparams : Nat
  nin : Nat
  nout : Nat
  name : String

/-- Model information function, `lacgfp8_mod_setup (model)`: the descriptor
after the call. -/
def lacgfp8_mod_setup {σ : Type} (model : stochmod σ) : stochmod σ :=
  { model with
    propensity := lacgfp8_propensity_eval
    update := lacgfp8_state_update
    initial := lacgfp8_initial_conditions
    output := lacgfp8_output
    nspecies := N
    nrxns := R
    nparams := L
    nin := Z
    nout := P
    name := "Lac-GFP construct model v8 (LACGFP8)" }

/-- A descriptor before setup: handles that fail and change nothing, all
dimensions 0 and the empty name. -/
def blankModel : stochmod (List Nat) :=
  { propensity := fun _ _ a => (GSL_EFAILED, a)
    update := fun X _ => (GSL_EFAILED, X)
    initial := fun _ X r => (GSL_EFAILED, X, r)
    output := fun m => (GSL_EFAILED, m)
    nspecies := 0
    nrxns := 0
    nparams := 0
    nin := 0
    nout := 0
    name := "" }

/-! ## Sequences of firings -/

/-- LACI monomer-equivalent total of a state: monomers, plus two for every
free dimer, plus two for every dimer bound to the operator. -/
def monomerTotal (X : gsl_vector) : ℚ :=
  gsl_vector_get X 1 + 2 * gsl_vector_get X 2 + 2 * gsl_vector_get X 4

/-- Total promoter count of a state: free promoter plus occupied promoter. -/
def promoterTotal (X : gsl_vector) : ℚ := gsl_vector_get X 3 + gsl_vector_get X 4

/-- The state holds integer counts that are not negative. -/
def IsCountState (X : gsl_vector) : Prop := ∀ x ∈ X, ∃ n : Nat, x = (n : ℚ)

/-- Propensity of reaction index `r` in state `X`: entry `r` of the buffer
that `lacgfp8_propensity_eval` fills, called on a buffer of `R` zeros. -/
def propensityOf (X params : gsl_vector) (r : Nat) : ℚ :=
  gsl_vector_get (lacgfp8_propensity_eval X params (List.replicate R 0)).2 r

/-- The states along a sequence of firings, the starting state first: every
reaction index of the sequence is passed to `lacgfp8_state_update` on the
state the previous call left. -/
def trajectory (X : gsl_vector) : List Nat → List gsl_vector
  | [] => [X]
  | r :: rs => X :: trajectory (lacgfp8_state_update X r).2 rs

/-- The statuses that the calls of `lacgfp8_state_update` along a sequence of
firings return, in order. -/
def statuses (X : gsl_vector) : List Nat → List Int
  | [] => []
  | r :: rs => (lacgfp8_state_update X r).1 :: statuses (lacgfp8_state_update X r).2 rs

/-- Every reaction index of the sequence is a reaction index (below `R`)
whose propensity is strictly positive in the state it is fired from. -/
def Fireable (params : gsl_vector) (X : gsl_vector) : List Nat → Prop
  | [] => True
  | r :: rs =>
    (r < R ∧ 0 < propensityOf X params r) ∧ Fireable params (lacgfp8_state_update X r).2 rs

/-- The state after a sequence of firings. -/
def fireAll (X : gsl_vector) (rs : List Nat) : gsl_vector :=
  rs.foldl (fun Y r => (lacgfp8_state_update Y r).2) X

/-! ## Double arithmetic

The operations above compute in exact rationals.  The definitions of this
section repeat propensity evaluation and state update with the arithmetic of
the C type `double`: IEEE 754 binary64 with rounding to nearest, ties to even,
every operation rounded on its own (no fused multiply-add, no excess
precision).  The sign of a zero is not kept: the operations used here
(`+`, `-`, `*` and the comparison with 0) do not tell the two zeros apart,
and a product of an infinity with a zero of either sign is NaN. -/

/-- A C `double`: a finite value, plus infinity, minus infinity or NaN. -/
inductive Double where
  | fin (q : ℚ)
  | pinf
  | ninf
  | nan
deriving DecidableEq

/-- The natural number nearest to a rational that is not negative, the even
one of the two when the rational lies halfway between them. -/
def roundHalfEven (q : ℚ) : Nat :=
  if q - (⌊q⌋₊ : ℚ) < 1 / 2 then ⌊q⌋₊
  else if 1 / 2 < q - (⌊q⌋₊ : ℚ) then ⌊q⌋₊ + 1
  else if ⌊q⌋₊ % 2 = 0 then ⌊q⌋₊
  else ⌊q⌋₊ + 1

/-- Spacing of the doubles around a rational `a` that is not negative: with
`2 ^ e ≤ a < 2 ^ (e + 1)` it is `2 ^ (e - 52)` (53 significant bits), and
`2 ^ (-1074)` below the smallest normal number `2 ^ (-1022)`. -/
def quantum (a : ℚ) : ℚ := (2 : ℚ) ^ (max (Int.log 2 a) (-1022) - 52)

/-- The double a real result is rounded to: the nearest multiple of the
spacing, ties to even; a result of magnitude `2 ^ 1024 - 2 ^ 970` or more
(halfway from the largest double to `2 ^ 1024`) overflows to an infinity. -/
def Double.round (q : ℚ) : Double :=
  if (2 : ℚ) ^ 1024 - 2 ^ 970 ≤ |q| then (if 0 < q then Double.pinf else Double.ninf)
  else if 0 ≤ q then Double.fin (roundHalfEven (q / quantum q) * quantum q)
  else Double.fin (-(roundHalfEven (-q / quantum (-q)) * quantum (-q)))

/-- Unary minus of doubles. -/
def Double.neg : Double → Double
  | Double.fin a => Double.fin (-a)
  | Double.pinf => Double.ninf
  | Double.ninf => Double.pinf
  | Double.nan => Double.nan

/-- Sum of doubles, `a + b` in C. -/
def Double.add : Double → Double → Double
  | Double.fin a, Double.fin b => Double.round (a + b)
  | Double.nan, _ => Double.nan
  | _, Double.nan => Double.nan
  | Double.pinf, Double.ninf => Double.nan
  | Double.ninf, Double.pinf => Double.nan
  | Double.pinf, _ => Double.pinf
  | _, Double.pinf => Double.pinf
  | Double.ninf, _ => Double.ninf
  | _, Double.ninf => Double.ninf

/-- Difference of doubles, `a - b` in C. -/
def Double.sub (a b : Double) : Double := Double.add a (Double.neg b)

/-- Product of doubles, `a * b` in C. -/
def Double.mul : Double → Double → Double
  | Double.fin a, Double.fin b => Double.round (a * b)
  | Double.nan, _ => Double.nan
  | _, Double.nan => Double.nan
  | Double.pinf, Double.fin b =>
    if b = 0 then Double.nan else if 0 < b then Double.pinf else Double.ninf
  | Double.ninf, Double.fin b =>
    if b = 0 then Double.nan else if 0 < b then Double.ninf else Double.pinf
  | Double.fin a, Double.pinf =>
    if a = 0 then Double.nan else if 0 < a then Double.pinf else Double.ninf
  | Double.fin a, Double.ninf =>
    if a = 0 then Double.nan else if 0 < a then Double.ninf else Double.pinf
  | Double.pinf, Double.pinf => Double.pinf
  | Double.pinf, Double.ninf => Double.ninf
  | Double.ninf, Double.pinf => Double.ninf
  | Double.ninf, Double.ninf => Double.pinf

/-- The rational is the value of a finite double: rounding leaves it alone. -/
def IsFiniteDouble (q : ℚ) : Prop := Double.round q = Double.fin q

/-- The value of a finite double (0 for an infinity or NaN). -/
def Double.toRat : Double → ℚ
  | Double.fin a => a
  | _ => 0

/-- Entries of a `gsl_vector` as doubles, in index order. -/
abbrev gsl_vector_double := List Double

/-- Field `size` of a `gsl_vector` of doubles. -/
def gsl_vector_double.size (v : gsl_vector_double) : Nat := v.length

/-- Library call `gsl_vector_get (v, i)` on doubles. -/
def gsl_vector_double_get (v : gsl_vector_double) (i : Nat) : Double := v.getD i (Double.fin 0)

/-- Library call `gsl_vector_set (v, i, x)` on doubles. -/
def gsl_vector_double_set (v : gsl_vector_double) (i : Nat) (x : Double) : gsl_vector_double :=
  v.set i x

/-- The values of a vector of doubles. -/
def values (v : gsl_vector_double) : gsl_vector := v.map Double.toRat

/-- Every entry of the vector is a finite double. -/
def AllFinite (v : gsl_vector_double) : Prop := ∀ y ∈ v, ∃ a : ℚ, y = Double.fin a

/-- Every entry of the vector is an integer of magnitude at most `2 ^ 53 - 2`;
adding 1 or 2 to such a double, or taking 1 or 2 from it, is exact. -/
def ExactRange (v : gsl_vector_double) : Prop :=
  ∀ y ∈ v, ∃ n : Int, |n| ≤ 2 ^ 53 - 2 ∧ y = Double.fin (n : ℚ)

/-- Propensity evaluation `lacgfp8_propensity_eval (X, params, prop)` in double
arithmetic: the status and the propensity buffer after the call.  The `1` of
`X2-1` is the `int` constant converted to `double`. -/
def lacgfp8_propensity_eval_double (X params prop : gsl_vector_double) :
    Int × gsl_vector_double :=
  if X.size ≠ N ∨ params.size ≠ L + Z ∨ prop.size ≠ R then
    (GSL_EFAILED, prop)
  else
    let X1 := gsl_vector_double_get X 0
    let X2 := gsl_vector_double_get X 1
    let X3 := gsl_vector_double_get X 2
    let X4 := gsl_vector_double_get X 3
    let X5 := gsl_vector_double_get X 4
    let X6 := gsl_vector_double_get X 5
    let X7 := gsl_vector_double_get X 6
    let X8 := gsl_vector_double_get X 7
    let k1 := gsl_vector_double_get params 0
    let k2 := gsl_vector_double_get params 1
    let k3 := gsl_vector_double_get params 2
    let k4 := gsl_vector_double_get params 3
    let k5 := gsl_vector_double_get params 4
    let k6 := gsl_vector_double_get params 5
    let k7 := gsl_vector_double_get params 6
    let k8 := gsl_vector_double_get params 7
    let k9 := gsl_vector_double_get params 8
    let k10 := gsl_vector_double_get params 9
    let k11 := gsl_vector_double_get params 10
    let k12 := gsl_vector_double_get params 11
    let k13 := gsl_vector_double_get params 12
    let k14 := gsl_vector_double_get params 13
    let k15 := gsl_vector_double_get params 14
    let u1 := gsl_vector_double_get params 15
    let prop := gsl_vector_double_set prop 0 k1
    let prop := gsl_vector_double_set prop 1 (Double.mul k2 X1)
    let prop := gsl_vector_double_set prop 2 (Double.mul k3 X1)
    let prop := gsl_vector_double_set prop 3 (Double.mul (Double.add k4 (Double.mul k5 u1)) X2)
    let prop := gsl_vector_double_set prop 4
      (Double.mul (Double.mul k6 X2) (Double.sub X2 (Double.fin 1)))
    let prop := gsl_vector_double_set prop 5 (Double.mul k7 X3)
    let prop := gsl_vector_double_set prop 6 (Double.mul (Double.mul k8 X3) X4)
    let prop := gsl_vector_double_set prop 7 (Double.mul k9 X5)
    let prop := gsl_vector_double_set prop 8 (Double.mul k10 X4)
    let prop := gsl_vector_double_set prop 9 (Double.mul k11 X5)
    let prop := gsl_vector_double_set prop 10 (Double.mul k12 X6)
    let prop := gsl_vector_double_set prop 11 (Double.mul k13 X6)
    let prop := gsl_vector_double_set prop 12 (Double.mul k14 X7)
    let prop := gsl_vector_double_set prop 13 (Double.mul k15 X7)
    let prop := gsl_vector_double_set prop 14 (Double.mul k14 X8)
    (GSL_SUCCESS, prop)

/-- State update `lacgfp8_state_update (X, rxnid)` in double arithmetic: the
status and the state vector after the call.  The `int` constants `(1)`,
`(-1)`, `(2)`, `(-2)` are converted to `double` before the sum. -/
def lacgfp8_state_update_double (X : gsl_vector_double) (rxnid : Nat) :
    Int × gsl_vector_double :=
  if X.size ≠ N then
    (GSL_EFAILED, X)
  else if rxnid ≥ R then
    (GSL_EFAILED, X)
  else
    let X :=
      match rxnid with
      | 0 => gsl_vector_double_set X 0 (Double.add (gsl_vector_double_get X 0) (Double.fin 1))
      | 1 => gsl_vector_double_set X 0 (Double.add (gsl_vector_double_get X 0) (Double.fin (-1)))
      | 2 => gsl_vector_double_set X 1 (Double.add (gsl_vector_double_get X 1) (Double.fin 1))
      | 3 => gsl_vector_double_set X 1 (Double.add (gsl_vector_double_get X 1) (Double.fin (-1)))
      | 4 =>
        let X := gsl_vector_double_set X 1
          (Double.add (gsl_vector_double_get X 1) (Double.fin (-2)))
        gsl_vector_double_set X 2 (Double.add (gsl_vector_double_get X 2) (Double.fin 1))
      | 5 =>
        let X := gsl_vector_double_set X 1 (Double.add (gsl_vector_double_get X 1) (Double.fin 2))
        gsl_vector_double_set X 2 (Double.add (gsl_vector_double_get X 2) (Double.fin (-1)))
      | 6 =>
        let X := gsl_vector_double_set X 2
          (Double.add (gsl_vector_double_get X 2) (Double.fin (-1)))
        let X := gsl_vector_double_set X 3
          (Double.add (gsl_vector_double_get X 3) (Double.fin (-1)))
        gsl_vector_double_set X 4 (Double.add (gsl_vector_double_get X 4) (Double.fin 1))
      | 7 =>
        let X := gsl_vector_double_set X 2 (Double.add (gsl_vector_double_get X 2) (Double.fin 1))
        let X := gsl_vector_double_set X 3 (Double.add (gsl_vector_double_get X 3) (Double.fin 1))
        gsl_vector_double_set X 4 (Double.add (gsl_vector_double_get X 4) (Double.fin (-1)))
      | 8 => gsl_vector_double_set X 5 (Double.add (gsl_vector_double_get X 5) (Double.fin 1))
      | 9 => gsl_vector_double_set X 5 (Double.add (gsl_vector_double_get X 5) (Double.fin 1))
      | 10 => gsl_vector_double_set X 5 (Double.add (gsl_vector_double_get X 5) (Double.fin (-1)))
      | 11 => gsl_vector_double_set X 6 (Double.add (gsl_vector_double_get X 6) (Double.fin 1))
      | 12 => gsl_vector_double_set X 6 (Double.add (gsl_vector_double_get X 6) (Double.fin (-1)))
      | 13 =>
        let X := gsl_vector_double_set X 6
          (Double.add (gsl_vector_double_get X 6) (Double.fin (-1)))
        gsl_vector_double_set X 7 (Double.add (gsl_vector_double_get X 7) (Double.fin 1))
      | 14 => gsl_vector_double_set X 7 (Double.add (gsl_vector_double_get X 7) (Double.fin (-1)))
      | _ => X
    (GSL_SUCCESS, X)

/-! ## Auxiliary facts -/

theorem vec_of_length_eight (X : gsl_vector) (h : X.length = 8) :
    ∃ x0 x1 x2 x3 x4 x5 x6 x7 : ℚ, X = [x0, x1, x2, x3, x4, x5, x6, x7] := by
  match X, h with
  | [x0, x1, x2, x3, x4, x5, x6, x7], _ => exact ⟨x0, x1, x2, x3, x4, x5, x6, x7, rfl⟩

theorem vec_of_length_fifteen (X : gsl_vector) (h : X.length = 15) :
    ∃ a0 a1 a2 a3 a4 a5 a6 a7 a8 a9 a10 a11 a12 a13 a14 : ℚ,
      X = [a0, a1, a2, a3, a4, a5, a6, a7, a8, a9, a10, a11, a12, a13, a14] := by
  match X, h with
  | [a0, a1, a2, a3, a4, a5, a6, a7, a8, a9, a10, a11, a12, a13, a14], _ =>
    exact ⟨a0, a1, a2, a3, a4, a5, a6, a7, a8, a9, a10, a11, a12, a13, a14, rfl⟩

theorem vec_of_length_sixteen (X : gsl_vector) (h : X.length = 16) :
    ∃ a0 a1 a2 a3 a4 a5 a6 a7 a8 a9 a10 a11 a12 a13 a14 a15 : ℚ,
      X = [a0, a1, a2, a3, a4, a5, a6, a7, a8, a9, a10, a11, a12, a13, a14, a15] := by
  match X, h with
  | [a0, a1, a2, a3, a4, a5, a6, a7, a8, a9, a10, a11, a12, a13, a14, a15], _ =>
    exact ⟨a0, a1, a2, a3, a4, a5, a6, a7, a8, a9, a10, a11, a12, a13, a14, a15, rfl⟩

theorem index_cases_fifteen (r : Nat) (h : r < 15) :
    r = 0 ∨ r = 1 ∨ r = 2 ∨ r = 3 ∨ r = 4 ∨ r = 5 ∨ r = 6 ∨ r = 7 ∨ r = 8 ∨ r = 9 ∨
      r = 10 ∨ r = 11 ∨ r = 12 ∨ r = 13 ∨ r = 14 := by
  omega

theorem state_update_explicit (x0 x1 x2 x3 x4 x5 x6 x7 : ℚ) (r : Nat) (hr : r < 15) :
    lacgfp8_state_update [x0, x1, x2, x3, x4, x5, x6, x7] r =
      (GSL_SUCCESS, vecAdd [x0, x1, x2, x3, x4, x5, x6, x7] (listedDelta r)) := by
  rcases index_cases_fifteen r hr with h | h | h | h | h | h | h | h | h | h | h | h | h | h | h <;>
    subst h <;>
    simp [lacgfp8_state_update, gsl_vector.size, N, R, gsl_vector_set, gsl_vector_get,
      vecAdd, listedDelta]

theorem propensity_eval_explicit
    (x0 x1 x2 x3 x4 x5 x6 x7 k1 k2 k3 k4 k5 k6 k7 k8 k9 k10 k11 k12 k13 k14 k15 u1 : ℚ)
    (a0 a1 a2 a3 a4 a5 a6 a7 a8 a9 a10 a11 a12 a13 a14 : ℚ) :
    lacgfp8_propensity_eval [x0, x1, x2, x3, x4, x5, x6, x7]
        [k1, k2, k3, k4, k5, k6, k7, k8, k9, k10, k11, k12, k13, k14, k15, u1]
        [a0, a1, a2, a3, a4, a5, a6, a7, a8, a9, a10, a11, a12, a13, a14] =
      (GSL_SUCCESS,
        [k1, k2 * x0, k3 * x0, (k4 + k5 * u1) * x1, k6 * x1 * (x1 - 1), k7 * x2, k8 * x2 * x3,
          k9 * x4, k10 * x3, k11 * x4, k12 * x5, k13 * x5, k14 * x6, k15 * x6, k14 * x7]) := by
  simp [lacgfp8_propensity_eval, gsl_vector.size, N, R, L, Z, gsl_vector_set, gsl_vector_get]

theorem count_pairs_nonneg (n : Nat) : (0 : ℚ) ≤ (n : ℚ) * ((n : ℚ) - 1) := by
  cases n with
  | zero => simp
  | succ m =>
    have h : ((m + 1 : Nat) : ℚ) - 1 = (m : ℚ) := by push_cast; ring
    rw [h]
    positivity

theorem initial_conditions_explicit {σ : Type} (draw : Rng σ)
    (x0 x1 x2 x3 x4 x5 x6 x7 : ℚ) (r : σ) :
    lacgfp8_initial_conditions draw [x0, x1, x2, x3, x4, x5, x6, x7] r =
      (GSL_SUCCESS,
        [((draw r 6).1 : ℚ), ((draw (draw r 6).2 11).1 : ℚ), 0,
          ((1 + (draw (draw (draw r 6).2 11).2 101).1 +
            (draw (draw (draw (draw r 6).2 11).2 101).2 101).1 : Nat) : ℚ), 0, 0, 0, 0],
        (draw (draw (draw (draw r 6).2 11).2 101).2 101).2) := by
  simp [lacgfp8_initial_conditions, gsl_vector.size, N, gsl_vector_set]

theorem output_explicit (m : gsl_matrix) (h1 : m.size1 = 1) (h2 : m.size2 = 8) :
    lacgfp8_output m = (GSL_SUCCESS, selectorRow) := by
  obtain ⟨s1, s2, data, wf⟩ := m
  simp only at h1 h2
  subst h1 h2
  obtain ⟨x0, x1, x2, x3, x4, x5, x6, x7, rfl⟩ := vec_of_length_eight data (by simpa using wf)
  simp [lacgfp8_output, P, N, gsl_matrix_set_all, gsl_matrix_set, selectorRow]

theorem status_codes_differ : GSL_EFAILED ≠ GSL_SUCCESS := by decide

theorem state_update_wrong_length (X : gsl_vector) (r : Nat) (h : X.size ≠ 8) :
    lacgfp8_state_update X r = (GSL_EFAILED, X) := by
  have hif : X.size ≠ N := h
  unfold lacgfp8_state_update
  rw [if_pos hif]

theorem state_update_wrong_index (X : gsl_vector) (r : Nat) (h : 15 ≤ r) :
    lacgfp8_state_update X r = (GSL_EFAILED, X) := by
  have hif : r ≥ R := h
  unfold lacgfp8_state_update
  by_cases h1 : X.size ≠ N
  · rw [if_pos h1]
  · rw [if_neg h1, if_pos hif]

theorem state_update_success_iff (X : gsl_vector) (r : Nat) :
    (lacgfp8_state_update X r).1 = GSL_SUCCESS ↔ X.size = 8 ∧ r < 15 := by
  by_cases h1 : X.size = 8
  · by_cases h2 : r < 15
    · obtain ⟨x0, x1, x2, x3, x4, x5, x6, x7, rfl⟩ := vec_of_length_eight X h1
      rw [state_update_explicit x0 x1 x2 x3 x4 x5 x6 x7 r h2]
      exact ⟨fun _ => ⟨h1, h2⟩, fun _ => rfl⟩
    · rw [state_update_wrong_index X r (Nat.not_lt.1 h2)]
      exact ⟨fun hs => absurd hs status_codes_differ, fun hs => absurd hs.2 h2⟩
  · rw [state_update_wrong_length X r h1]
    exact ⟨fun hs => absurd hs status_codes_differ, fun hs => absurd hs.1 h1⟩

theorem propensity_eval_success_iff (X params prop : gsl_vector) :
    (lacgfp8_propensity_eval X params prop).1 = GSL_SUCCESS ↔
      X.size = 8 ∧ params.size = 16 ∧ prop.size = 15 := by
  by_cases h : X.size ≠ N ∨ params.size ≠ L + Z ∨ prop.size ≠ R
  · have e : lacgfp8_propensity_eval X params prop = (GSL_EFAILED, prop) := by
      unfold lacgfp8_propensity_eval
      rw [if_pos h]
    rw [e]
    refine ⟨fun hs => absurd hs status_codes_differ, fun hs => ?_⟩
    rcases h with h | h | h
    · exact absurd hs.1 h
    · exact absurd hs.2.1 h
    · exact absurd hs.2.2 h
  · have e : (lacgfp8_propensity_eval X params prop).1 = GSL_SUCCESS := by
      unfold lacgfp8_propensity_eval
      rw [if_neg h]
    refine ⟨fun _ => ?_, fun _ => e⟩
    simp only [N, L, Z, R, not_or, not_not] at h
    exact h

theorem initial_conditions_success_iff {σ : Type} (draw : Rng σ) (X0 : gsl_vector) (r : σ) :
    (lacgfp8_initial_conditions draw X0 r).1 = GSL_SUCCESS ↔ X0.size = 8 := by
  by_cases h : X0.size = 8
  · obtain ⟨x0, x1, x2, x3, x4, x5, x6, x7, rfl⟩ := vec_of_length_eight X0 h
    rw [initial_conditions_explicit]
    exact ⟨fun _ => h, fun _ => rfl⟩
  · have hif : X0.size ≠ N := h
    have e : lacgfp8_initial_conditions draw X0 r = (GSL_EFAILED, X0, r) := by
      unfold lacgfp8_initial_conditions
      rw [if_pos hif]
    rw [e]
    exact ⟨fun hs => absurd hs status_codes_differ, fun hs => absurd hs h⟩

theorem output_success_iff (out : gsl_matrix) :
    (lacgfp8_output out).1 = GSL_SUCCESS ↔ out.size1 = 1 ∧ out.size2 = 8 := by
  by_cases h : out.size1 ≠ P ∨ out.size2 ≠ N
  · have e : lacgfp8_output out = (GSL_EFAILED, out) := by
      unfold lacgfp8_output
      rw [if_pos h]
    rw [e]
    refine ⟨fun hs => absurd hs status_codes_differ, fun hs => ?_⟩
    rcases h with h | h
    · exact absurd hs.1 h
    · exact absurd hs.2 h
  · have e : (lacgfp8_output out).1 = GSL_SUCCESS := by
      unfold lacgfp8_output
      rw [if_neg h]
    refine ⟨fun _ => ?_, fun _ => e⟩
    simp only [P, N, not_or, not_not] at h
    exact h

theorem pos_of_rate_mul_pos (k x : ℚ) (hx : 0 ≤ x) (h : 0 < k * x) : 0 < x := by
  rcases hx.eq_or_lt with h0 | h0
  · rw [← h0, mul_zero] at h
    exact absurd h (lt_irrefl 0)
  · exact h0

theorem count_succ (n : Nat) : ∃ m : Nat, (n : ℚ) + 1 = (m : ℚ) :=
  ⟨n + 1, by push_cast; ring⟩

theorem count_add_two (n : Nat) : ∃ m : Nat, (n : ℚ) + 2 = (m : ℚ) :=
  ⟨n + 2, by push_cast; ring⟩

theorem count_pred (n : Nat) (h : 0 < (n : ℚ)) : ∃ m : Nat, (n : ℚ) + -1 = (m : ℚ) := by
  cases n with
  | zero => simp at h
  | succ m => exact ⟨m, by push_cast; ring⟩

theorem count_sub_two (n : Nat) (h : 0 < (n : ℚ) * ((n : ℚ) - 1)) :
    ∃ m : Nat, (n : ℚ) + -2 = (m : ℚ) := by
  match n, h with
  | 0, h => simp at h
  | 1, h => simp at h
  | m + 2, _ => exact ⟨m, by push_cast; ring⟩

theorem state_update_keeps_counts (X params prop : gsl_vector) (r : Nat)
    (hX : X.size = 8) (hcount : IsCountState X)
    (hp : params.size = 16) (hpos : ∀ k ∈ params, 0 ≤ k) (ha : prop.size = 15) (hr : r < 15)
    (hfire : 0 < gsl_vector_get (lacgfp8_propensity_eval X params prop).2 r) :
    IsCountState (lacgfp8_state_update X r).2 := by
  obtain ⟨x0, x1, x2, x3, x4, x5, x6, x7, rfl⟩ := vec_of_length_eight X hX
  obtain ⟨k1, k2, k3, k4, k5, k6, k7, k8, k9, k10, k11, k12, k13, k14, k15, u1, rfl⟩ :=
    vec_of_length_sixteen params hp
  obtain ⟨a0, a1, a2, a3, a4, a5, a6, a7, a8, a9, a10, a11, a12, a13, a14, rfl⟩ :=
    vec_of_length_fifteen prop ha
  rw [propensity_eval_explicit] at hfire
  rw [state_update_explicit x0 x1 x2 x3 x4 x5 x6 x7 r hr]
  simp only [IsCountState, List.mem_cons, forall_eq_or_imp, List.mem_nil_iff] at hcount hpos
  obtain ⟨⟨n0, rfl⟩, ⟨n1, rfl⟩, ⟨n2, rfl⟩, ⟨n3, rfl⟩, ⟨n4, rfl⟩, ⟨n5, rfl⟩, ⟨n6, rfl⟩,
    ⟨n7, rfl⟩, _⟩ := hcount
  obtain ⟨h1, h2, h3, h4, h5, h6, h7, h8, h9, h10, h11, h12, h13, h14, h15, hu, _⟩ := hpos
  have c0 : ∃ m : Nat, (n0 : ℚ) = (m : ℚ) := ⟨n0, rfl⟩
  have c1 : ∃ m : Nat, (n1 : ℚ) = (m : ℚ) := ⟨n1, rfl⟩
  have c2 : ∃ m : Nat, (n2 : ℚ) = (m : ℚ) := ⟨n2, rfl⟩
  have c3 : ∃ m : Nat, (n3 : ℚ) = (m : ℚ) := ⟨n3, rfl⟩
  have c4 : ∃ m : Nat, (n4 : ℚ) = (m : ℚ) := ⟨n4, rfl⟩
  have c5 : ∃ m : Nat, (n5 : ℚ) = (m : ℚ) := ⟨n5, rfl⟩
  have c6 : ∃ m : Nat, (n6 : ℚ) = (m : ℚ) := ⟨n6, rfl⟩
  have c7 : ∃ m : Nat, (n7 : ℚ) = (m : ℚ) := ⟨n7, rfl⟩
  have fin : ∀ x : ℚ, False → ∃ m : Nat, x = (m : ℚ) := fun _ hf => hf.elim
  rcases index_cases_fifteen r hr with
    h | h | h | h | h | h | h | h | h | h | h | h | h | h | h <;>
    subst h <;>
    simp only [gsl_vector_get, List.getD_cons_zero, List.getD_cons_succ] at hfire <;>
    simp only [IsCountState, vecAdd, listedDelta, List.zipWith_cons_cons, List.zipWith_nil_right,
      List.mem_cons, forall_eq_or_imp, List.mem_nil_iff, add_zero]
  · exact ⟨count_succ n0, c1, c2, c3, c4, c5, c6, c7, fin⟩
  · exact ⟨count_pred n0 (pos_of_rate_mul_pos _ _ (Nat.cast_nonneg n0) hfire),
      c1, c2, c3, c4, c5, c6, c7, fin⟩
  · exact ⟨c0, count_succ n1, c2, c3, c4, c5, c6, c7, fin⟩
  · exact ⟨c0, count_pred n1 (pos_of_rate_mul_pos _ _ (Nat.cast_nonneg n1) hfire),
      c2, c3, c4, c5, c6, c7, fin⟩
  · rw [mul_assoc] at hfire
    have hpair := pos_of_rate_mul_pos _ _ (count_pairs_nonneg n1) hfire
    exact ⟨c0, count_sub_two n1 hpair, count_succ n2, c3, c4, c5, c6, c7, fin⟩
  · exact ⟨c0, count_add_two n1,
      count_pred n2 (pos_of_rate_mul_pos _ _ (Nat.cast_nonneg n2) hfire),
      c3, c4, c5, c6, c7, fin⟩
  · have hx3 := pos_of_rate_mul_pos _ _ (Nat.cast_nonneg n3) hfire
    have hk8x2 : 0 < k8 * (n2 : ℚ) := by
      by_contra hneg
      have hle : k8 * (n2 : ℚ) ≤ 0 := not_lt.1 hneg
      have := mul_nonpos_of_nonpos_of_nonneg hle (Nat.cast_nonneg (α := ℚ) n3)
      exact absurd hfire (not_lt.2 this)
    exact ⟨c0, c1, count_pred n2 (pos_of_rate_mul_pos _ _ (Nat.cast_nonneg n2) hk8x2),
      count_pred n3 hx3, count_succ n4, c5, c6, c7, fin⟩
  · exact ⟨c0, c1, count_succ n2, count_succ n3,
      count_pred n4 (pos_of_rate_mul_pos _ _ (Nat.cast_nonneg n4) hfire), c5, c6, c7, fin⟩
  · exact ⟨c0, c1, c2, c3, c4, count_succ n5, c6, c7, fin⟩
  · exact ⟨c0, c1, c2, c3, c4, count_succ n5, c6, c7, fin⟩
  · exact ⟨c0, c1, c2, c3, c4,
      count_pred n5 (pos_of_rate_mul_pos _ _ (Nat.cast_nonneg n5) hfire), c6, c7, fin⟩
  · exact ⟨c0, c1, c2, c3, c4, c5, count_succ n6, c7, fin⟩
  · exact ⟨c0, c1, c2, c3, c4, c5,
      count_pred n6 (pos_of_rate_mul_pos _ _ (Nat.cast_nonneg n6) hfire), c7, fin⟩
  · exact ⟨c0, c1, c2, c3, c4, c5,
      count_pred n6 (pos_of_rate_mul_pos _ _ (Nat.cast_nonneg n6) hfire), count_succ n7, fin⟩
  · exact ⟨c0, c1, c2, c3, c4, c5, c6,
      count_pred n7 (pos_of_rate_mul_pos _ _ (Nat.cast_nonneg n7) hfire), fin⟩

theorem state_update_keeps_size (X : gsl_vector) (r : Nat) :
    (lacgfp8_state_update X r).2.size = X.size := by
  by_cases h1 : X.size = 8
  · by_cases h2 : r < 15
    · obtain ⟨x0, x1, x2, x3, x4, x5, x6, x7, rfl⟩ := vec_of_length_eight X h1
      rw [state_update_explicit x0 x1 x2 x3 x4 x5 x6 x7 r h2]
      rcases index_cases_fifteen r h2 with
        h | h | h | h | h | h | h | h | h | h | h | h | h | h | h <;>
        subst h <;>
        simp [gsl_vector.size, vecAdd, listedDelta]
    · rw [state_update_wrong_index X r (Nat.not_lt.1 h2)]
  · rw [state_update_wrong_length X r h1]

theorem state_update_keeps_promoter_total (X : gsl_vector) (r : Nat)
    (hX : X.size = 8) (hr : r < 15) :
    promoterTotal (lacgfp8_state_update X r).2 = promoterTotal X := by
  obtain ⟨x0, x1, x2, x3, x4, x5, x6, x7, rfl⟩ := vec_of_length_eight X hX
  rw [state_update_explicit x0 x1 x2 x3 x4 x5 x6 x7 r hr]
  rcases index_cases_fifteen r hr with
    h | h | h | h | h | h | h | h | h | h | h | h | h | h | h <;>
    subst h <;>
    simp [promoterTotal, gsl_vector_get, vecAdd, listedDelta] <;>
    ring

theorem listedDelta_shape (r : Nat) :
    ∃ d0 d1 d2 d3 d4 d5 d6 d7 : ℚ, listedDelta r = [d0, d1, d2, d3, d4, d5, d6, d7] := by
  unfold listedDelta
  split <;> exact ⟨_, _, _, _, _, _, _, _, rfl⟩

theorem state_update_comm (X : gsl_vector) (r s : Nat) :
    (lacgfp8_state_update (lacgfp8_state_update X r).2 s).2 =
      (lacgfp8_state_update (lacgfp8_state_update X s).2 r).2 := by
  by_cases hr : r < 15
  · by_cases hs : s < 15
    · by_cases hX : X.size = 8
      · obtain ⟨x0, x1, x2, x3, x4, x5, x6, x7, rfl⟩ := vec_of_length_eight X hX
        obtain ⟨d0, d1, d2, d3, d4, d5, d6, d7, hd⟩ := listedDelta_shape r
        obtain ⟨e0, e1, e2, e3, e4, e5, e6, e7, he⟩ := listedDelta_shape s
        rw [state_update_explicit x0 x1 x2 x3 x4 x5 x6 x7 r hr,
          state_update_explicit x0 x1 x2 x3 x4 x5 x6 x7 s hs, hd, he]
        simp only [vecAdd, List.zipWith_cons_cons, List.zipWith_nil_right]
        rw [state_update_explicit _ _ _ _ _ _ _ _ s hs,
          state_update_explicit _ _ _ _ _ _ _ _ r hr, hd, he]
        simp only [vecAdd, List.zipWith_cons_cons, List.zipWith_nil_right, add_right_comm]
      · simp only [state_update_wrong_length X _ hX]
    · simp only [state_update_wrong_index _ s (Nat.not_lt.1 hs)]
  · simp only [state_update_wrong_index _ r (Nat.not_lt.1 hr)]

theorem fireAll_perm (X : gsl_vector) (rs ss : List Nat) (h : rs.Perm ss) :
    fireAll X rs = fireAll X ss := by
  induction h generalizing X with
  | nil => rfl
  | cons r _ ih => exact ih (lacgfp8_state_update X r).2
  | swap r s l =>
    simp only [fireAll, List.foldl_cons]
    rw [state_update_comm X s r]
  | trans _ _ ih1 ih2 => exact (ih1 X).trans (ih2 X)

theorem trajectory_invariant (params : gsl_vector) (hp : params.size = 16)
    (hpos : ∀ k ∈ params, 0 ≤ k) (c : ℚ) (rs : List Nat) :
    ∀ X : gsl_vector, X.size = 8 → IsCountState X → promoterTotal X = c →
      Fireable params X rs →
      (∀ Y ∈ trajectory X rs, Y.size = 8 ∧ IsCountState Y ∧ promoterTotal Y = c) ∧
        statuses X rs = List.replicate rs.length GSL_SUCCESS := by
  induction rs with
  | nil =>
    intro X hX hcount hc _
    refine ⟨?_, rfl⟩
    intro Y hY
    simp only [trajectory, List.mem_singleton] at hY
    subst hY
    exact ⟨hX, hcount, hc⟩
  | cons r rs ih =>
    intro X hX hcount hc hfire
    obtain ⟨⟨hr, hprop⟩, hrest⟩ := hfire
    have hr15 : r < 15 := hr
    have hsize : (lacgfp8_state_update X r).2.size = 8 := by
      rw [state_update_keeps_size, hX]
    have hcount2 : IsCountState (lacgfp8_state_update X r).2 :=
      state_update_keeps_counts X params (List.replicate R 0) r hX hcount hp hpos
        (by simp [gsl_vector.size, R]) hr15 hprop
    have hc2 : promoterTotal (lacgfp8_state_update X r).2 = c := by
      rw [state_update_keeps_promoter_total X r hX hr15, hc]
    have hstep := ih (lacgfp8_state_update X r).2 hsize hcount2 hc2 hrest
    refine ⟨?_, ?_⟩
    · intro Y hY
      simp only [trajectory, List.mem_cons] at hY
      rcases hY with hY | hY
      · subst hY
        exact ⟨hX, hcount, hc⟩
      · exact hstep.1 Y hY
    · simp only [statuses, List.length_cons, List.replicate_succ]
      rw [hstep.2, (state_update_success_iff X r).2 ⟨hX, hr15⟩]

/-! ## Auxiliary facts on double arithmetic -/

theorem roundHalfEven_natCast (n : Nat) : roundHalfEven (n : ℚ) = n := by
  simp [roundHalfEven]

theorem round_small_nat (k : Nat) (hk : k ≤ 2 ^ 53) :
    ((roundHalfEven ((k : ℚ) / quantum k) : Nat) : ℚ) * quantum k = k := by
  rcases Nat.eq_zero_or_pos k with h0 | hpos
  · subst h0
    have : ((0 : Nat) : ℚ) / quantum ((0 : Nat) : ℚ) = ((0 : Nat) : ℚ) := by simp
    rw [this, roundHalfEven_natCast]
    simp
  · have hlog : Int.log 2 (k : ℚ) = (Nat.log 2 k : ℤ) := Int.log_natCast 2 k
    have hlt : Nat.log 2 k < 54 :=
      Nat.log_lt_of_lt_pow (Nat.pos_iff_ne_zero.1 hpos) (by omega)
    have hq : quantum k = (2 : ℚ) ^ ((Nat.log 2 k : ℤ) - 52) := by
      unfold quantum
      rw [hlog, max_eq_left (by omega)]
    rw [hq]
    by_cases he : Nat.log 2 k ≤ 52
    · obtain ⟨j, hj⟩ : ∃ j : Nat, Nat.log 2 k + j = 52 := ⟨52 - Nat.log 2 k, by omega⟩
      have hz : ((Nat.log 2 k : ℤ) - 52) = -(j : ℤ) := by omega
      rw [hz, zpow_neg, zpow_natCast]
      have : (k : ℚ) / ((2 : ℚ) ^ j)⁻¹ = ((k * 2 ^ j : Nat) : ℚ) := by
        push_cast
        field_simp
      rw [this, roundHalfEven_natCast]
      push_cast
      field_simp
    · have he53 : Nat.log 2 k = 53 := by omega
      have hge : 2 ^ 53 ≤ k := by
        have := Nat.pow_log_le_self 2 (Nat.pos_iff_ne_zero.1 hpos)
        rwa [he53] at this
      have hk53 : k = 2 ^ 53 := Nat.le_antisymm hk hge
      rw [he53, hk53]
      have : (((2 ^ 53 : Nat) : ℚ)) / (2 : ℚ) ^ (((53 : Nat) : ℤ) - 52) = ((2 ^ 52 : Nat) : ℚ) := by
        norm_num
      rw [this, roundHalfEven_natCast]
      norm_num

theorem small_nat_below_overflow (k : Nat) (hk : k ≤ 2 ^ 53) :
    ¬ ((2 : ℚ) ^ 1024 - 2 ^ 970 ≤ |(k : ℚ)|) := by
  have h1 : |(k : ℚ)| = (k : ℚ) := abs_of_nonneg (Nat.cast_nonneg k)
  have h2 : (k : ℚ) ≤ 2 ^ 53 := by exact_mod_cast hk
  rw [h1, not_le]
  have h3 : (2 : ℚ) ^ 53 < 2 ^ 1024 - 2 ^ 970 := by norm_num
  exact lt_of_le_of_lt h2 h3

theorem round_int_exact (n : ℤ) (hn : |n| ≤ 2 ^ 53) : Double.round (n : ℚ) = Double.fin (n : ℚ) := by
  obtain ⟨k, hk | hk⟩ : ∃ k : Nat, n = (k : ℤ) ∨ n = -(k : ℤ) := ⟨n.natAbs, Int.natAbs_eq n⟩
  · subst hk
    have hk53 : k ≤ 2 ^ 53 := by
      rw [abs_of_nonneg (Int.natCast_nonneg k)] at hn
      exact_mod_cast hn
    rw [Int.cast_natCast]
    unfold Double.round
    rw [if_neg (small_nat_below_overflow _ hk53), if_pos (Nat.cast_nonneg _), round_small_nat _ hk53]
  · subst hk
    have hk53 : k ≤ 2 ^ 53 := by
      rw [abs_neg, abs_of_nonneg (Int.natCast_nonneg k)] at hn
      exact_mod_cast hn
    rw [Int.cast_neg, Int.cast_natCast]
    rcases Nat.eq_zero_or_pos k with h0 | hpos
    · subst h0
      unfold Double.round
      rw [Nat.cast_zero, neg_zero, if_neg (by norm_num), if_pos (le_refl 0)]
      have := round_small_nat 0 (by norm_num)
      rw [Nat.cast_zero] at this
      rw [this]
    · have hneg : ¬ (0 ≤ -(k : ℚ)) := by
        have : (0 : ℚ) < (k : ℚ) := by exact_mod_cast hpos
        linarith
      unfold Double.round
      rw [abs_neg, if_neg (small_nat_below_overflow _ hk53), if_neg hneg, neg_neg, round_small_nat _ hk53]

theorem round_tie_at_two_pow_53 : Double.round (2 ^ 53 + 1) = Double.fin (2 ^ 53) := by
  have hlog : Int.log 2 ((2 : ℚ) ^ 53 + 1) = 53 := by
    have h1 : ((2 : ℚ) ^ 53 + 1) = ((2 ^ 53 + 1 : Nat) : ℚ) := by norm_num
    rw [h1, Int.log_natCast]
    have : Nat.log 2 (2 ^ 53 + 1) = 53 :=
      Nat.log_eq_of_pow_le_of_lt_pow (by norm_num) (by norm_num)
    rw [this]
    rfl
  have hq : quantum ((2 : ℚ) ^ 53 + 1) = 2 := by
    unfold quantum
    rw [hlog]
    norm_num
  have hfloor : ⌊((2 : ℚ) ^ 53 + 1) / 2⌋₊ = 2 ^ 52 := by
    rw [Nat.floor_eq_iff (by positivity)]
    norm_num
  have hr : roundHalfEven (((2 : ℚ) ^ 53 + 1) / 2) = 2 ^ 52 := by
    unfold roundHalfEven
    rw [hfloor]
    norm_num
  unfold Double.round
  rw [if_neg (by norm_num [abs_of_nonneg]), if_pos (by positivity), hq, hr]
  norm_num

theorem add_fin_fin (a b : ℚ) :
    Double.add (Double.fin a) (Double.fin b) = Double.round (a + b) := rfl

theorem mul_fin_fin (a b : ℚ) :
    Double.mul (Double.fin a) (Double.fin b) = Double.round (a * b) := rfl

theorem int_range (n : ℤ) (h : |n| ≤ 2 ^ 53 - 2) :
    -9007199254740990 ≤ n ∧ n ≤ 9007199254740990 := by
  have h2 : ((2 : ℤ) ^ 53 - 2) = 9007199254740990 := by norm_num
  rw [h2] at h
  exact abs_le.1 h

theorem add_int_exact (n d : ℤ) (h : |n + d| ≤ 2 ^ 53) :
    Double.add (Double.fin (n : ℚ)) (Double.fin (d : ℚ)) = Double.fin ((n : ℚ) + (d : ℚ)) := by
  rw [add_fin_fin]
  have := round_int_exact (n + d) h
  rw [Int.cast_add] at this
  exact this

theorem add_one_exact (n : ℤ) (h : |n| ≤ 2 ^ 53 - 2) :
    Double.add (Double.fin (n : ℚ)) (Double.fin 1) = Double.fin ((n : ℚ) + 1) := by
  obtain ⟨h1, h2⟩ := int_range n h
  have := add_int_exact n 1 (by rw [abs_le]; constructor <;> norm_num <;> omega)
  simpa using this

theorem add_neg_one_exact (n : ℤ) (h : |n| ≤ 2 ^ 53 - 2) :
    Double.add (Double.fin (n : ℚ)) (Double.fin (-1)) = Double.fin ((n : ℚ) + -1) := by
  obtain ⟨h1, h2⟩ := int_range n h
  have := add_int_exact n (-1) (by rw [abs_le]; constructor <;> norm_num <;> omega)
  simpa using this

theorem add_two_exact (n : ℤ) (h : |n| ≤ 2 ^ 53 - 2) :
    Double.add (Double.fin (n : ℚ)) (Double.fin 2) = Double.fin ((n : ℚ) + 2) := by
  obtain ⟨h1, h2⟩ := int_range n h
  have := add_int_exact n 2 (by rw [abs_le]; constructor <;> norm_num <;> omega)
  simpa using this

theorem add_neg_two_exact (n : ℤ) (h : |n| ≤ 2 ^ 53 - 2) :
    Double.add (Double.fin (n : ℚ)) (Double.fin (-2)) = Double.fin ((n : ℚ) + -2) := by
  obtain ⟨h1, h2⟩ := int_range n h
  have := add_int_exact n (-2) (by rw [abs_le]; constructor <;> norm_num <;> omega)
  simpa using this

theorem state_update_double_explicit (n0 n1 n2 n3 n4 n5 n6 n7 : ℤ)
    (h0 : |n0| ≤ 2 ^ 53 - 2) (h1 : |n1| ≤ 2 ^ 53 - 2) (h2 : |n2| ≤ 2 ^ 53 - 2)
    (h3 : |n3| ≤ 2 ^ 53 - 2) (h4 : |n4| ≤ 2 ^ 53 - 2) (h5 : |n5| ≤ 2 ^ 53 - 2)
    (h6 : |n6| ≤ 2 ^ 53 - 2) (h7 : |n7| ≤ 2 ^ 53 - 2) (r : Nat) (hr : r < 15) :
    lacgfp8_state_update_double
        [Double.fin (n0 : ℚ), Double.fin (n1 : ℚ), Double.fin (n2 : ℚ), Double.fin (n3 : ℚ),
          Double.fin (n4 : ℚ), Double.fin (n5 : ℚ), Double.fin (n6 : ℚ), Double.fin (n7 : ℚ)] r =
      (GSL_SUCCESS,
        (vecAdd [(n0 : ℚ), (n1 : ℚ), (n2 : ℚ), (n3 : ℚ), (n4 : ℚ), (n5 : ℚ), (n6 : ℚ), (n7 : ℚ)]
          (listedDelta r)).map Double.fin) := by
  rcases index_cases_fifteen r hr with h | h | h | h | h | h | h | h | h | h | h | h | h | h | h <;>
    subst h <;>
    simp [lacgfp8_state_update_double, gsl_vector_double.size, N, R, gsl_vector_double_set,
      gsl_vector_double_get, vecAdd, listedDelta,
      add_one_exact n0 h0, add_neg_one_exact n0 h0,
      add_one_exact n1 h1, add_neg_one_exact n1 h1,
      add_one_exact n2 h2, add_neg_one_exact n2 h2,
      add_one_exact n3 h3, add_neg_one_exact n3 h3,
      add_one_exact n4 h4, add_neg_one_exact n4 h4,
      add_one_exact n5 h5, add_neg_one_exact n5 h5,
      add_one_exact n6 h6, add_neg_one_exact n6 h6,
      add_one_exact n7 h7, add_neg_one_exact n7 h7,
      add_two_exact n1 h1, add_neg_two_exact n1 h1]

theorem exact_range_explicit (Y : gsl_vector_double) (hY : Y.size = 8) (hrange : ExactRange Y) :
    ∃ n0 n1 n2 n3 n4 n5 n6 n7 : ℤ,
      (|n0| ≤ 2 ^ 53 - 2 ∧ |n1| ≤ 2 ^ 53 - 2 ∧ |n2| ≤ 2 ^ 53 - 2 ∧ |n3| ≤ 2 ^ 53 - 2 ∧
        |n4| ≤ 2 ^ 53 - 2 ∧ |n5| ≤ 2 ^ 53 - 2 ∧ |n6| ≤ 2 ^ 53 - 2 ∧ |n7| ≤ 2 ^ 53 - 2) ∧
      Y = [Double.fin (n0 : ℚ), Double.fin (n1 : ℚ), Double.fin (n2 : ℚ), Double.fin (n3 : ℚ),
        Double.fin (n4 : ℚ), Double.fin (n5 : ℚ), Double.fin (n6 : ℚ), Double.fin (n7 : ℚ)] := by
  match Y, hY, hrange with
  | [y0, y1, y2, y3, y4, y5, y6, y7], _, hrange =>
    simp only [ExactRange, List.mem_cons, forall_eq_or_imp, List.mem_nil_iff] at hrange
    obtain ⟨⟨n0, h0, rfl⟩, ⟨n1, h1, rfl⟩, ⟨n2, h2, rfl⟩, ⟨n3, h3, rfl⟩, ⟨n4, h4, rfl⟩,
      ⟨n5, h5, rfl⟩, ⟨n6, h6, rfl⟩, ⟨n7, h7, rfl⟩, _⟩ := hrange
    exact ⟨n0, n1, n2, n3, n4, n5, n6, n7, ⟨h0, h1, h2, h3, h4, h5, h6, h7⟩, rfl⟩

theorem state_update_double_refines (Y : gsl_vector_double) (r : Nat)
    (hY : Y.size = 8) (hr : r < 15) (hrange : ExactRange Y) :
    (lacgfp8_state_update_double Y r).1 = GSL_SUCCESS ∧
      AllFinite (lacgfp8_state_update_double Y r).2 ∧
      (values Y).size = 8 ∧
      values (lacgfp8_state_update_double Y r).2 = (lacgfp8_state_update (values Y) r).2 := by
  obtain ⟨n0, n1, n2, n3, n4, n5, n6, n7, ⟨h0, h1, h2, h3, h4, h5, h6, h7⟩, rfl⟩ :=
    exact_range_explicit Y hY hrange
  rw [state_update_double_explicit n0 n1 n2 n3 n4 n5 n6 n7 h0 h1 h2 h3 h4 h5 h6 h7 r hr]
  have hval : values [Double.fin (n0 : ℚ), Double.fin (n1 : ℚ), Double.fin (n2 : ℚ),
      Double.fin (n3 : ℚ), Double.fin (n4 : ℚ), Double.fin (n5 : ℚ), Double.fin (n6 : ℚ),
      Double.fin (n7 : ℚ)] =
      [(n0 : ℚ), (n1 : ℚ), (n2 : ℚ), (n3 : ℚ), (n4 : ℚ), (n5 : ℚ), (n6 : ℚ), (n7 : ℚ)] := rfl
  rw [hval, state_update_explicit _ _ _ _ _ _ _ _ r hr]
  refine ⟨rfl, ?_, rfl, ?_⟩
  · intro y hy
    obtain ⟨a, _, rfl⟩ := List.mem_map.1 hy
    exact ⟨a, rfl⟩
  · simp only [values, List.map_map]
    exact List.map_id'' (fun _ => rfl) _

theorem propensity_eval_double_explicit
    (x0 x1 x2 x3 x4 x5 x6 x7 k1 k2 k3 k4 k5 k6 k7 k8 k9 k10 k11 k12 k13 k14 k15 u1 : Double)
    (a0 a1 a2 a3 a4 a5 a6 a7 a8 a9 a10 a11 a12 a13 a14 : Double) :
    lacgfp8_propensity_eval_double [x0, x1, x2, x3, x4, x5, x6, x7]
        [k1, k2, k3, k4, k5, k6, k7, k8, k9, k10, k11, k12, k13, k14, k15, u1]
        [a0, a1, a2, a3, a4, a5, a6, a7, a8, a9, a10, a11, a12, a13, a14] =
      (GSL_SUCCESS,
        [k1, Double.mul k2 x0, Double.mul k3 x0, Double.mul (Double.add k4 (Double.mul k5 u1)) x1,
          Double.mul (Double.mul k6 x1) (Double.sub x1 (Double.fin 1)), Double.mul k7 x2,
          Double.mul (Double.mul k8 x2) x3, Double.mul k9 x4, Double.mul k10 x3,
          Double.mul k11 x4, Double.mul k12 x5, Double.mul k13 x5, Double.mul k14 x6,
          Double.mul k15 x6, Double.mul k14 x7]) := by
  simp [lacgfp8_propensity_eval_double, gsl_vector_double.size, N, R, L, Z,
    gsl_vector_double_set, gsl_vector_double_get]

theorem dvec_of_length_fifteen (X : gsl_vector_double) (h : X.length = 15) :
    ∃ a0 a1 a2 a3 a4 a5 a6 a7 a8 a9 a10 a11 a12 a13 a14 : Double,
      X = [a0, a1, a2, a3, a4, a5, a6, a7, a8, a9, a10, a11, a12, a13, a14] := by
  match X, h with
  | [a0, a1, a2, a3, a4, a5, a6, a7, a8, a9, a10, a11, a12, a13, a14], _ =>
    exact ⟨a0, a1, a2, a3, a4, a5, a6, a7, a8, a9, a10, a11, a12, a13, a14, rfl⟩

theorem round_zero : Double.round 0 = Double.fin 0 := by
  have := round_int_exact 0 (by norm_num)
  simpa using this

theorem state_update_conservation_exact (X : gsl_vector) (r : Nat) (hX : X.size = 8) :
    (r ∈ [4, 5, 6, 7] →
        monomerTotal (lacgfp8_state_update X r).2 = monomerTotal X) ∧
      (r ∈ [1, 3, 10, 12, 14] →
        ∃ i : Nat, i < 8 ∧
          (lacgfp8_state_update X r).2 = gsl_vector_set X i (gsl_vector_get X i - 1)) ∧
      (r ∈ [0, 2, 8, 9, 11] →
        ∃ i : Nat, i < 8 ∧
          (lacgfp8_state_update X r).2 = gsl_vector_set X i (gsl_vector_get X i + 1)) := by
  obtain ⟨x0, x1, x2, x3, x4, x5, x6, x7, rfl⟩ := vec_of_length_eight X hX
  refine ⟨?_, ?_, ?_⟩
  · intro hr
    simp only [List.mem_cons, List.mem_nil_iff, or_false] at hr
    rcases hr with h | h | h | h <;>
      subst h <;>
      rw [state_update_explicit x0 x1 x2 x3 x4 x5 x6 x7 _ (by decide)] <;>
      simp [monomerTotal, gsl_vector_get, vecAdd, listedDelta] <;>
      ring
  · intro hr
    simp only [List.mem_cons, List.mem_nil_iff, or_false] at hr
    rcases hr with h | h | h | h | h <;>
      subst h <;>
      rw [state_update_explicit x0 x1 x2 x3 x4 x5 x6 x7 _ (by decide)]
    · exact ⟨0, by decide, by simp [vecAdd, listedDelta, gsl_vector_set, gsl_vector_get]; ring⟩
    · exact ⟨1, by decide, by simp [vecAdd, listedDelta, gsl_vector_set, gsl_vector_get]; ring⟩
    · exact ⟨5, by decide, by simp [vecAdd, listedDelta, gsl_vector_set, gsl_vector_get]; ring⟩
    · exact ⟨6, by decide, by simp [vecAdd, listedDelta, gsl_vector_set, gsl_vector_get]; ring⟩
    · exact ⟨7, by decide, by simp [vecAdd, listedDelta, gsl_vector_set, gsl_vector_get]; ring⟩
  · intro hr
    simp only [List.mem_cons, List.mem_nil_iff, or_false] at hr
    rcases hr with h | h | h | h | h <;>
      subst h <;>
      rw [state_update_explicit x0 x1 x2 x3 x4 x5 x6 x7 _ (by decide)]
    · exact ⟨0, by decide, by simp [vecAdd, listedDelta, gsl_vector_set, gsl_vector_get]⟩
    · exact ⟨1, by decide, by simp [vecAdd, listedDelta, gsl_vector_set, gsl_vector_get]⟩
    · exact ⟨5, by decide, by simp [vecAdd, listedDelta, gsl_vector_set, gsl_vector_get]⟩
    · exact ⟨5, by decide, by simp [vecAdd, listedDelta, gsl_vector_set, gsl_vector_get]⟩
    · exact ⟨6, by decide, by simp [vecAdd, listedDelta, gsl_vector_set, gsl_vector_get]⟩

theorem round_49 : Double.round 49 = Double.fin 49 := by
  have := round_int_exact 49 (by norm_num)
  simpa using this

theorem small_counts_in_range (l : List Int) (h : ∀ n ∈ l, |n| ≤ 2 ^ 53 - 2) :
    ExactRange (List.map (fun n : Int => Double.fin (n : ℚ)) l) := by
  intro y hy
  obtain ⟨n, hn, rfl⟩ := List.mem_map.1 hy
  exact ⟨n, h n hn, rfl⟩

/-! ## State update -/

/-- Claim C1: on a state vector of length 8 and a reaction index below 15,
`lacgfp8_state_update` returns success and the new state is the old state
plus the change listed for that index; the listed change is the net change of
the reaction table's line with the same index. -/
theorem state_update_applies_listed_delta (X : gsl_vector) (r : Nat)
    (hX : X.size = 8) (hr : r < 15) :
    lacgfp8_state_update X r = (GSL_SUCCESS, vecAdd X (listedDelta r)) ∧
      listedDelta r = tableDelta r := by
  obtain ⟨x0, x1, x2, x3, x4, x5, x6, x7, rfl⟩ := vec_of_length_eight X hX
  refine ⟨state_update_explicit x0 x1 x2 x3 x4 x5 x6 x7 r hr, ?_⟩
  rcases index_cases_fifteen r hr with h | h | h | h | h | h | h | h | h | h | h | h | h | h | h <;>
    subst h <;>
    simp [listedDelta, tableDelta, REACTIONS, N, List.range_succ, List.count_cons] <;>
    norm_num

/-- Witness of C1 on the state `[0,0,0,50,0,0,0,0]` and reaction index 4. -/
theorem state_update_applies_listed_delta_witness :
    lacgfp8_state_update [0, 0, 0, 50, 0, 0, 0, 0] 4 =
        (GSL_SUCCESS, vecAdd [0, 0, 0, 50, 0, 0, 0, 0] (listedDelta 4)) ∧
      listedDelta 4 = tableDelta 4 :=
  state_update_applies_listed_delta [0, 0, 0, 50, 0, 0, 0, 0] 4 (by rfl) (by decide)

/-! ## Propensity evaluation -/

/-- Claim C4: `lacgfp8_state_update` returns success exactly when the state
vector has length 8 and the reaction index is below 15; otherwise it returns
the failure status and the state vector is unchanged. -/
theorem state_update_status (X : gsl_vector) (r : Nat) :
    ((lacgfp8_state_update X r).1 = GSL_SUCCESS ↔ X.size = 8 ∧ r < 15) ∧
      (X.size ≠ 8 ∨ 15 ≤ r → lacgfp8_state_update X r = (GSL_EFAILED, X)) ∧
      GSL_EFAILED ≠ GSL_SUCCESS := by
  have hne : GSL_EFAILED ≠ GSL_SUCCESS := by decide
  by_cases h1 : X.size ≠ N
  · have e : lacgfp8_state_update X r = (GSL_EFAILED, X) := by
      unfold lacgfp8_state_update
      rw [if_pos h1]
    rw [e]
    exact ⟨⟨fun hs => absurd hs hne, fun hs => absurd hs.1 h1⟩, fun _ => rfl, hne⟩
  · by_cases h2 : r ≥ R
    · have e : lacgfp8_state_update X r = (GSL_EFAILED, X) := by
        unfold lacgfp8_state_update
        rw [if_neg h1, if_pos h2]
      rw [e]
      exact ⟨⟨fun hs => absurd hs hne, fun hs => absurd h2 (Nat.not_le.2 hs.2)⟩,
        fun _ => rfl, hne⟩
    · have e : (lacgfp8_state_update X r).1 = GSL_SUCCESS := by
        unfold lacgfp8_state_update
        rw [if_neg h1, if_neg h2]
      have h8 : X.size = 8 := not_not.1 h1
      have h15 : r < 15 := Nat.not_le.1 h2
      exact ⟨⟨fun _ => ⟨h8, h15⟩, fun _ => e⟩,
        fun hs => hs.elim (fun h => absurd h8 h) (fun h => absurd h (Nat.not_le.2 h15)), hne⟩

/-- Witness of C4: a length-8 state with reaction index 15. -/
theorem state_update_status_witness :
    lacgfp8_state_update [0, 0, 0, 50, 0, 0, 0, 0] 15 = (GSL_EFAILED, [0, 0, 0, 50, 0, 0, 0, 0]) :=
  (state_update_status [0, 0, 0, 50, 0, 0, 0, 0] 15).2.1 (Or.inr (by decide))

/-- Claim C5: `lacgfp8_propensity_eval` returns a status other than success
exactly when the state length is not 8, the parameter length is not 16 or the
buffer length is not 15; in that case the status is the failure status and the
buffer is unchanged. -/
theorem propensity_eval_status (X params prop : gsl_vector) :
    ((lacgfp8_propensity_eval X params prop).1 ≠ GSL_SUCCESS ↔
        X.size ≠ 8 ∨ params.size ≠ 16 ∨ prop.size ≠ 15) ∧
      (X.size ≠ 8 ∨ params.size ≠ 16 ∨ prop.size ≠ 15 →
        lacgfp8_propensity_eval X params prop = (GSL_EFAILED, prop)) := by
  have hne : GSL_EFAILED ≠ GSL_SUCCESS := by decide
  by_cases h : X.size ≠ 8 ∨ params.size ≠ 16 ∨ prop.size ≠ 15
  · have hif : X.size ≠ N ∨ params.size ≠ L + Z ∨ prop.size ≠ R := h
    have e : lacgfp8_propensity_eval X params prop = (GSL_EFAILED, prop) := by
      unfold lacgfp8_propensity_eval
      rw [if_pos hif]
    rw [e]
    exact ⟨⟨fun _ => h, fun _ => hne⟩, fun _ => rfl⟩
  · have hif : ¬ (X.size ≠ N ∨ params.size ≠ L + Z ∨ prop.size ≠ R) := h
    have e : (lacgfp8_propensity_eval X params prop).1 = GSL_SUCCESS := by
      unfold lacgfp8_propensity_eval
      rw [if_neg hif]
    exact ⟨⟨fun hs => absurd e hs, fun hs => absurd hs h⟩, fun hs => absurd hs h⟩

/-- Witness of C5: a parameter vector of length 15 (the input `u1` missing). -/
theorem propensity_eval_status_witness :
    lacgfp8_propensity_eval [0, 0, 0, 50, 0, 0, 0, 0]
        [1, 2, 3, 4, 5, 6, 7, 8, 9, 10, 11, 12, 13, 14, 15]
        [9, 9, 9, 9, 9, 9, 9, 9, 9, 9, 9, 9, 9, 9, 9] =
      (GSL_EFAILED, [9, 9, 9, 9, 9, 9, 9, 9, 9, 9, 9, 9, 9, 9, 9]) :=
  (propensity_eval_status [0, 0, 0, 50, 0, 0, 0, 0]
    [1, 2, 3, 4, 5, 6, 7, 8, 9, 10, 11, 12, 13, 14, 15]
    [9, 9, 9, 9, 9, 9, 9, 9, 9, 9, 9, 9, 9, 9, 9]).2 (Or.inr (Or.inl (by decide)))

/-! ## Initial-state sampling -/

/-- Claim C6: on a vector of length 8 and a random source whose draws lie
below their bounds, `lacgfp8_initial_conditions` returns success and the
sampled state is `[n0, n1, 0, n3, 0, 0, 0, 0]` with integers `n0` in [0,5],
`n1` in [0,10] and `n3` in [1,201]; the list-reading source is such a source
and with it the draws 0,0,0,0 give the lower ends and the draws 5,10,100,100
the upper ends. -/
theorem initial_conditions_within_bounds {σ : Type} (draw : Rng σ) (X0 : gsl_vector) (r : σ)
    (hX : X0.size = 8) (hdraw : InRange draw) :
    (∃ n0 n1 n3 : Nat, n0 ≤ 5 ∧ n1 ≤ 10 ∧ 1 ≤ n3 ∧ n3 ≤ 201 ∧
        (lacgfp8_initial_conditions draw X0 r).1 = GSL_SUCCESS ∧
        (lacgfp8_initial_conditions draw X0 r).2.1 =
          [(n0 : ℚ), (n1 : ℚ), 0, (n3 : ℚ), 0, 0, 0, 0]) ∧
      InRange listRng ∧
      (lacgfp8_initial_conditions listRng X0 [0, 0, 0, 0]).2.1 = [0, 0, 0, 1, 0, 0, 0, 0] ∧
      (lacgfp8_initial_conditions listRng X0 [5, 10, 100, 100]).2.1 =
        [5, 10, 0, 201, 0, 0, 0, 0] := by
  obtain ⟨x0, x1, x2, x3, x4, x5, x6, x7, rfl⟩ := vec_of_length_eight X0 hX
  refine ⟨?_, ?_, ?_, ?_⟩
  · rw [initial_conditions_explicit]
    have b1 := hdraw r 6 (by decide)
    have b2 := hdraw (draw r 6).2 11 (by decide)
    have b3 := hdraw (draw (draw r 6).2 11).2 101 (by decide)
    have b4 := hdraw (draw (draw (draw r 6).2 11).2 101).2 101 (by decide)
    exact ⟨_, _, _, by omega, by omega, by omega, by omega, rfl, rfl⟩
  · intro s n hn
    exact Nat.mod_lt _ hn
  · rw [initial_conditions_explicit]
    simp [listRng]
  · rw [initial_conditions_explicit]
    simp [listRng]

/-- Witness of C6 with the list-reading source and the draws 7, 23, 500, 1000. -/
theorem initial_conditions_within_bounds_witness :
    ∃ n0 n1 n3 : Nat, n0 ≤ 5 ∧ n1 ≤ 10 ∧ 1 ≤ n3 ∧ n3 ≤ 201 ∧
      (lacgfp8_initial_conditions listRng [9, 9, 9, 9, 9, 9, 9, 9] [7, 23, 500, 1000]).1 =
        GSL_SUCCESS ∧
      (lacgfp8_initial_conditions listRng [9, 9, 9, 9, 9, 9, 9, 9] [7, 23, 500, 1000]).2.1 =
        [(n0 : ℚ), (n1 : ℚ), 0, (n3 : ℚ), 0, 0, 0, 0] :=
  (initial_conditions_within_bounds listRng [9, 9, 9, 9, 9, 9, 9, 9] [7, 23, 500, 1000]
    (by rfl) (fun _ _ hn => Nat.mod_lt _ hn)).1

/-- Claim C7: on a vector of length 8 `lacgfp8_initial_conditions` threads the
source through four draws with bounds 6, 11, 101, 101 in that order and
returns the state `[d1, d2, 0, 1 + d3 + d4, 0, 0, 0, 0]` of the drawn values
together with the source state after the fourth draw; a source that records
the bounds it is asked for records exactly 6, 11, 101, 101; and the result is
the same for every other vector of length 8. -/
theorem initial_conditions_function_of_draws {σ : Type} (draw : Rng σ) (X0 : gsl_vector)
    (r r1 r2 r3 r4 : σ) (d1 d2 d3 d4 : Nat) (hX : X0.size = 8)
    (h1 : draw r 6 = (d1, r1)) (h2 : draw r1 11 = (d2, r2))
    (h3 : draw r2 101 = (d3, r3)) (h4 : draw r3 101 = (d4, r4)) :
    lacgfp8_initial_conditions draw X0 r =
        (GSL_SUCCESS, [(d1 : ℚ), (d2 : ℚ), 0, ((1 + d3 + d4 : Nat) : ℚ), 0, 0, 0, 0], r4) ∧
      (∀ log : List Nat,
        (lacgfp8_initial_conditions (logged draw) X0 (r, log)).2.2 =
          (r4, log ++ [6, 11, 101, 101])) ∧
      ∀ Y0 : gsl_vector, Y0.size = 8 →
        lacgfp8_initial_conditions draw Y0 r = lacgfp8_initial_conditions draw X0 r := by
  obtain ⟨x0, x1, x2, x3, x4, x5, x6, x7, rfl⟩ := vec_of_length_eight X0 hX
  refine ⟨?_, ?_, ?_⟩
  · rw [initial_conditions_explicit, h1, h2, h3, h4]
  · intro log
    rw [initial_conditions_explicit]
    simp [logged, h1, h2, h3, h4]
  · intro Y0 hY
    obtain ⟨y0, y1, y2, y3, y4, y5, y6, y7, rfl⟩ := vec_of_length_eight Y0 hY
    rw [initial_conditions_explicit, initial_conditions_explicit]

/-- Witness of C7 with the list-reading source and the draws 7, 23, 500, 1000,
which reduce to 1, 1, 96, 91. -/
theorem initial_conditions_function_of_draws_witness :
    lacgfp8_initial_conditions listRng [9, 9, 9, 9, 9, 9, 9, 9] [7, 23, 500, 1000, 4] =
      (GSL_SUCCESS, [((1 : Nat) : ℚ), ((1 : Nat) : ℚ), 0, ((1 + 96 + 91 : Nat) : ℚ), 0, 0, 0, 0],
        [4]) :=
  (initial_conditions_function_of_draws listRng [9, 9, 9, 9, 9, 9, 9, 9]
    [7, 23, 500, 1000, 4] [23, 500, 1000, 4] [500, 1000, 4] [1000, 4] [4] 1 1 96 91
    (by rfl) (by rfl) (by rfl) (by rfl) (by rfl)).1

/-- Claim C10: on a vector whose length is not 8 `lacgfp8_initial_conditions`
returns the failure status, the vector is unchanged and the source is in the
state it was in before the call; a source that records the bounds it is asked
for records nothing. -/
theorem initial_conditions_wrong_length {σ : Type} (draw : Rng σ) (X0 : gsl_vector) (r : σ)
    (hX : X0.size ≠ 8) :
    lacgfp8_initial_conditions draw X0 r = (GSL_EFAILED, X0, r) ∧
      (∀ log : List Nat,
        lacgfp8_initial_conditions (logged draw) X0 (r, log) = (GSL_EFAILED, X0, (r, log))) ∧
      GSL_EFAILED ≠ GSL_SUCCESS := by
  have hif : X0.size ≠ N := hX
  refine ⟨?_, ?_, by decide⟩
  · unfold lacgfp8_initial_conditions
    rw [if_pos hif]
  · intro log
    unfold lacgfp8_initial_conditions
    rw [if_pos hif]

/-- Witness of C10 on a vector of length 7. -/
theorem initial_conditions_wrong_length_witness :
    lacgfp8_initial_conditions listRng [9, 9, 9, 9, 9, 9, 9] [7, 23, 500, 1000] =
      (GSL_EFAILED, [9, 9, 9, 9, 9, 9, 9], [7, 23, 500, 1000]) :=
  (initial_conditions_wrong_length listRng [9, 9, 9, 9, 9, 9, 9] [7, 23, 500, 1000]
    (by decide)).1

/-! ## Output function -/

/-- Claim C8: on every 1-by-8 matrix `lacgfp8_output` returns success and
leaves the selector row with entry (0,7) equal to 1 and the seven other
entries 0; the product of that matrix with a state of length 8 is the single
entry of index 7 of the state; and the operation applied to its own result
returns the same result. -/
theorem output_is_selector_row (out : gsl_matrix) (h1 : out.size1 = 1) (h2 : out.size2 = 8) :
    lacgfp8_output out = (GSL_SUCCESS, selectorRow) ∧
      (∀ j : Nat, j < 8 →
        gsl_matrix_get (lacgfp8_output out).2 0 j = if j = 7 then 1 else 0) ∧
      (∀ X : gsl_vector, X.size = 8 →
        project (lacgfp8_output out).2 X = [gsl_vector_get X 7]) ∧
      lacgfp8_output (lacgfp8_output out).2 = lacgfp8_output out := by
  have e := output_explicit out h1 h2
  have e2 := output_explicit selectorRow rfl rfl
  rw [e]
  refine ⟨rfl, ?_, ?_, e2⟩
  · intro j hj
    have hcases : j = 0 ∨ j = 1 ∨ j = 2 ∨ j = 3 ∨ j = 4 ∨ j = 5 ∨ j = 6 ∨ j = 7 := by omega
    rcases hcases with h | h | h | h | h | h | h | h <;>
      subst h <;>
      simp [gsl_matrix_get, selectorRow]
  · intro X hX
    obtain ⟨x0, x1, x2, x3, x4, x5, x6, x7, rfl⟩ := vec_of_length_eight X hX
    simp [project, selectorRow, gsl_matrix_get, gsl_vector_get, List.range_succ]

/-- Witness of C8 on a 1-by-8 matrix holding the entries 1 to 8. -/
theorem output_is_selector_row_witness :
    lacgfp8_output ⟨1, 8, [1, 2, 3, 4, 5, 6, 7, 8], by rfl⟩ = (GSL_SUCCESS, selectorRow) :=
  (output_is_selector_row ⟨1, 8, [1, 2, 3, 4, 5, 6, 7, 8], by rfl⟩ (by rfl) (by rfl)).1

/-- Claim C9: `lacgfp8_output` returns a status other than success exactly
when the matrix is not 1 row by 8 columns; in that case the status is the
failure status and the matrix is unchanged. -/
theorem output_status (out : gsl_matrix) :
    ((lacgfp8_output out).1 ≠ GSL_SUCCESS ↔ ¬ (out.size1 = 1 ∧ out.size2 = 8)) ∧
      (¬ (out.size1 = 1 ∧ out.size2 = 8) → lacgfp8_output out = (GSL_EFAILED, out)) := by
  have hne : GSL_EFAILED ≠ GSL_SUCCESS := by decide
  by_cases h : out.size1 ≠ P ∨ out.size2 ≠ N
  · have e : lacgfp8_output out = (GSL_EFAILED, out) := by
      unfold lacgfp8_output
      rw [if_pos h]
    have hshape : ¬ (out.size1 = 1 ∧ out.size2 = 8) := fun hs =>
      h.elim (fun h1 => h1 hs.1) (fun h2 => h2 hs.2)
    rw [e]
    exact ⟨⟨fun _ => hshape, fun _ => hne⟩, fun _ => rfl⟩
  · have e : (lacgfp8_output out).1 = GSL_SUCCESS := by
      unfold lacgfp8_output
      rw [if_neg h]
    have hshape : out.size1 = 1 ∧ out.size2 = 8 := by
      constructor
      · by_contra h1
        exact h (Or.inl h1)
      · by_contra h2
        exact h (Or.inr h2)
    exact ⟨⟨fun hs => absurd e hs, fun hs => absurd hshape hs⟩, fun hs => absurd hshape hs⟩

/-- Witness of C9 on an 8-by-1 matrix. -/
theorem output_status_witness :
    lacgfp8_output ⟨8, 1, [1, 2, 3, 4, 5, 6, 7, 8], by rfl⟩ =
      (GSL_EFAILED, ⟨8, 1, [1, 2, 3, 4, 5, 6, 7, 8], by rfl⟩) :=
  (output_status ⟨8, 1, [1, 2, 3, 4, 5, 6, 7, 8], by rfl⟩).2 (by decide)

/-! ## Model registration -/

/-- Claim C11: `lacgfp8_mod_setup` fills the descriptor with nspecies 8,
nrxns 15, nparams 15, nin 1, nout 1, the name of the model and the four
operations, and the bound operations succeed exactly on the sizes the
descriptor declares: propensity on a state of nspecies entries, nparams + nin
parameters and a buffer of nrxns entries; update on a state of nspecies
entries and an index below nrxns; initial on a vector of nspecies entries;
output on an nout-by-nspecies matrix. -/
theorem mod_setup_descriptor {σ : Type} (model : stochmod σ) :
    ((lacgfp8_mod_setup model).nspecies = 8 ∧ (lacgfp8_mod_setup model).nrxns = 15 ∧
        (lacgfp8_mod_setup model).nparams = 15 ∧ (lacgfp8_mod_setup model).nin = 1 ∧
        (lacgfp8_mod_setup model).nout = 1 ∧
        (lacgfp8_mod_setup model).name = "Lac-GFP construct model v8 (LACGFP8)") ∧
      ((lacgfp8_mod_setup model).propensity = lacgfp8_propensity_eval ∧
        (lacgfp8_mod_setup model).update = lacgfp8_state_update ∧
        (lacgfp8_mod_setup model).initial = lacgfp8_initial_conditions ∧
        (lacgfp8_mod_setup model).output = lacgfp8_output) ∧
      (∀ X params prop : gsl_vector,
        ((lacgfp8_mod_setup model).propensity X params prop).1 = GSL_SUCCESS ↔
          X.size = (lacgfp8_mod_setup model).nspecies ∧
            params.size = (lacgfp8_mod_setup model).nparams + (lacgfp8_mod_setup model).nin ∧
            prop.size = (lacgfp8_mod_setup model).nrxns) ∧
      (∀ (X : gsl_vector) (r : Nat),
        ((lacgfp8_mod_setup model).update X r).1 = GSL_SUCCESS ↔
          X.size = (lacgfp8_mod_setup model).nspecies ∧ r < (lacgfp8_mod_setup model).nrxns) ∧
      (∀ (draw : Rng σ) (X0 : gsl_vector) (r : σ),
        ((lacgfp8_mod_setup model).initial draw X0 r).1 = GSL_SUCCESS ↔
          X0.size = (lacgfp8_mod_setup model).nspecies) ∧
      ∀ out : gsl_matrix,
        ((lacgfp8_mod_setup model).output out).1 = GSL_SUCCESS ↔
          out.size1 = (lacgfp8_mod_setup model).nout ∧
            out.size2 = (lacgfp8_mod_setup model).nspecies := by
  refine ⟨⟨rfl, rfl, rfl, rfl, rfl, rfl⟩, ⟨rfl, rfl, rfl, rfl⟩, ?_, ?_, ?_, ?_⟩
  · intro X params prop
    exact propensity_eval_success_iff X params prop
  · intro X r
    exact state_update_success_iff X r
  · intro draw X0 r
    exact initial_conditions_success_iff draw X0 r
  · intro out
    exact output_success_iff out

/-- Witness of C11 on the blank descriptor: the dimensions and the name after
setup. -/
theorem mod_setup_descriptor_witness :
    (lacgfp8_mod_setup blankModel).nspecies = 8 ∧ (lacgfp8_mod_setup blankModel).nrxns = 15 ∧
      (lacgfp8_mod_setup blankModel).nparams = 15 ∧ (lacgfp8_mod_setup blankModel).nin = 1 ∧
      (lacgfp8_mod_setup blankModel).nout = 1 ∧
      (lacgfp8_mod_setup blankModel).name = "Lac-GFP construct model v8 (LACGFP8)" :=
  (mod_setup_descriptor blankModel).1

/-! ## The end-to-end example -/

/-- Claim C12: entry 0 of the propensity vector is the first parameter
whatever the state: for two states of length 8 and a parameter vector of
length 16 evaluation gives entry 0 equal to `params[0]` on both; on the state
`[0,0,0,50,0,0,0,0]` with `k1 = 1`, `u1 = 0` and any other constants entry 0
is 1, firing reaction index 0 gives `[1,0,0,50,0,0,0,0]`, and the product of
the output matrix with the state is the single entry 0. -/
theorem example_constitutive_transcription (X Y params prop : gsl_vector)
    (hX : X.size = 8) (hY : Y.size = 8) (hp : params.size = 16) (ha : prop.size = 15) :
    (gsl_vector_get (lacgfp8_propensity_eval X params prop).2 0 = gsl_vector_get params 0 ∧
        gsl_vector_get (lacgfp8_propensity_eval Y params prop).2 0 = gsl_vector_get params 0) ∧
      (∀ k2 k3 k4 k5 k6 k7 k8 k9 k10 k11 k12 k13 k14 k15 : ℚ,
        gsl_vector_get
          (lacgfp8_propensity_eval [0, 0, 0, 50, 0, 0, 0, 0]
            [1, k2, k3, k4, k5, k6, k7, k8, k9, k10, k11, k12, k13, k14, k15, 0] prop).2 0 = 1) ∧
      lacgfp8_state_update [0, 0, 0, 50, 0, 0, 0, 0] 0 =
        (GSL_SUCCESS, [1, 0, 0, 50, 0, 0, 0, 0]) ∧
      ∀ out : gsl_matrix, out.size1 = 1 → out.size2 = 8 →
        project (lacgfp8_output out).2 [0, 0, 0, 50, 0, 0, 0, 0] = [0] := by
  obtain ⟨x0, x1, x2, x3, x4, x5, x6, x7, rfl⟩ := vec_of_length_eight X hX
  obtain ⟨y0, y1, y2, y3, y4, y5, y6, y7, rfl⟩ := vec_of_length_eight Y hY
  obtain ⟨k1, k2, k3, k4, k5, k6, k7, k8, k9, k10, k11, k12, k13, k14, k15, u1, rfl⟩ :=
    vec_of_length_sixteen params hp
  obtain ⟨a0, a1, a2, a3, a4, a5, a6, a7, a8, a9, a10, a11, a12, a13, a14, rfl⟩ :=
    vec_of_length_fifteen prop ha
  refine ⟨⟨?_, ?_⟩, ?_, ?_, ?_⟩
  · rw [propensity_eval_explicit]
    simp [gsl_vector_get]
  · rw [propensity_eval_explicit]
    simp [gsl_vector_get]
  · intro k2 k3 k4 k5 k6 k7 k8 k9 k10 k11 k12 k13 k14 k15
    rw [propensity_eval_explicit]
    simp [gsl_vector_get]
  · rw [state_update_explicit 0 0 0 50 0 0 0 0 0 (by decide)]
    simp [vecAdd, listedDelta]
  · intro out h1 h2
    rw [output_explicit out h1 h2]
    simp [project, selectorRow, gsl_matrix_get, gsl_vector_get, List.range_succ]

/-- Witness of C12 on the example state and the state `[3,4,2,50,1,5,6,7]`. -/
theorem example_constitutive_transcription_witness :
    gsl_vector_get
        (lacgfp8_propensity_eval [0, 0, 0, 50, 0, 0, 0, 0]
          [1, 2, 3, 4, 5, 6, 7, 8, 9, 10, 11, 12, 13, 14, 15, 0]
          [0, 0, 0, 0, 0, 0, 0, 0, 0, 0, 0, 0, 0, 0, 0]).2 0 =
        gsl_vector_get [1, 2, 3, 4, 5, 6, 7, 8, 9, 10, 11, 12, 13, 14, 15, 0] 0 ∧
      gsl_vector_get
        (lacgfp8_propensity_eval [3, 4, 2, 50, 1, 5, 6, 7]
          [1, 2, 3, 4, 5, 6, 7, 8, 9, 10, 11, 12, 13, 14, 15, 0]
          [0, 0, 0, 0, 0, 0, 0, 0, 0, 0, 0, 0, 0, 0, 0]).2 0 =
        gsl_vector_get [1, 2, 3, 4, 5, 6, 7, 8, 9, 10, 11, 12, 13, 14, 15, 0] 0 :=
  (example_constitutive_transcription [0, 0, 0, 50, 0, 0, 0, 0] [3, 4, 2, 50, 1, 5, 6, 7]
    [1, 2, 3, 4, 5, 6, 7, 8, 9, 10, 11, 12, 13, 14, 15, 0]
    [0, 0, 0, 0, 0, 0, 0, 0, 0, 0, 0, 0, 0, 0, 0] (by rfl) (by rfl) (by rfl) (by rfl)).1

/-! ## Failure statuses -/

/-- Counterexample to C13 as stated: on a state of length 7 with index 0 and
on a state of length 8 with index 15 `lacgfp8_state_update` returns one and
the same status. -/
theorem state_update_failures_not_distinguished :
    ¬ ((lacgfp8_state_update [0, 0, 0, 50, 0, 0, 0] 0).1 ≠
        (lacgfp8_state_update [0, 0, 0, 50, 0, 0, 0, 0] 15).1) := by
  rw [state_update_wrong_length _ 0 (by decide), state_update_wrong_index _ 15 (by decide)]
  exact fun h => h rfl

/-- Claim C13, amended: the status `lacgfp8_state_update` returns for a state
vector of the wrong length with a valid index and the status it returns for a
state vector of length 8 with a reaction index of 15 or more are the same
status `GSL_EFAILED`, and that status differs from success. -/
theorem state_update_failure_status (X Y : gsl_vector) (r s : Nat)
    (hX : X.size ≠ 8) (_hr : r < 15) (_hY : Y.size = 8) (hs : 15 ≤ s) :
    (lacgfp8_state_update X r).1 = GSL_EFAILED ∧
      (lacgfp8_state_update Y s).1 = GSL_EFAILED ∧
      (lacgfp8_state_update X r).1 = (lacgfp8_state_update Y s).1 ∧
      (lacgfp8_state_update X r).1 ≠ GSL_SUCCESS ∧
      (lacgfp8_state_update Y s).1 ≠ GSL_SUCCESS := by
  rw [state_update_wrong_length X r hX, state_update_wrong_index Y s hs]
  exact ⟨rfl, rfl, rfl, status_codes_differ, status_codes_differ⟩

/-- Witness of the amended C13 on a state of length 7 with index 0 and a
state of length 8 with index 15. -/
theorem state_update_failure_status_witness :
    (lacgfp8_state_update [0, 0, 0, 50, 0, 0, 0] 0).1 = GSL_EFAILED ∧
      (lacgfp8_state_update [0, 0, 0, 50, 0, 0, 0, 0] 15).1 = GSL_EFAILED ∧
      (lacgfp8_state_update [0, 0, 0, 50, 0, 0, 0] 0).1 =
        (lacgfp8_state_update [0, 0, 0, 50, 0, 0, 0, 0] 15).1 ∧
      (lacgfp8_state_update [0, 0, 0, 50, 0, 0, 0] 0).1 ≠ GSL_SUCCESS ∧
      (lacgfp8_state_update [0, 0, 0, 50, 0, 0, 0, 0] 15).1 ≠ GSL_SUCCESS :=
  state_update_failure_status [0, 0, 0, 50, 0, 0, 0] [0, 0, 0, 50, 0, 0, 0, 0] 0 15
    (by decide) (by decide) (by rfl) (by decide)

/-! ## Consistency of stoichiometry and propensities -/

/-- Claim C14: on a state of 8 non-negative integer counts, a parameter vector
of 16 non-negative values and a reaction index below 15, when the propensity
that `lacgfp8_propensity_eval` writes for the index is strictly positive,
`lacgfp8_state_update` succeeds for that index and the state it leaves again
consists of 8 non-negative integer counts. -/
theorem positive_propensity_keeps_counts (X params prop : gsl_vector) (r : Nat)
    (hX : X.size = 8) (hcount : ∀ x ∈ X, ∃ n : Nat, x = (n : ℚ))
    (hp : params.size = 16) (hpos : ∀ k ∈ params, 0 ≤ k) (ha : prop.size = 15) (hr : r < 15)
    (hfire : 0 < gsl_vector_get (lacgfp8_propensity_eval X params prop).2 r) :
    (lacgfp8_state_update X r).1 = GSL_SUCCESS ∧
      (lacgfp8_state_update X r).2.size = 8 ∧
      ∀ x ∈ (lacgfp8_state_update X r).2, ∃ n : Nat, x = (n : ℚ) := by
  refine ⟨(state_update_success_iff X r).2 ⟨hX, hr⟩, ?_, ?_⟩
  · rw [state_update_keeps_size, hX]
  · exact state_update_keeps_counts X params prop r hX hcount hp hpos ha hr hfire

/-- Witness of C14 on the counts `[0,2,0,50,0,0,0,0]` and reaction index 4
(dimerization), whose propensity is `6 * 2 * 1`. -/
theorem positive_propensity_keeps_counts_witness :
    (lacgfp8_state_update (List.map Nat.cast [0, 2, 0, 50, 0, 0, 0, 0]) 4).1 = GSL_SUCCESS ∧
      (lacgfp8_state_update (List.map Nat.cast [0, 2, 0, 50, 0, 0, 0, 0]) 4).2.size = 8 :=
  have h := positive_propensity_keeps_counts (List.map Nat.cast [0, 2, 0, 50, 0, 0, 0, 0])
    [1, 2, 3, 4, 5, 6, 7, 8, 9, 10, 11, 12, 13, 14, 15, 0]
    [0, 0, 0, 0, 0, 0, 0, 0, 0, 0, 0, 0, 0, 0, 0] 4
    (by rfl)
    (fun x hx => by
      obtain ⟨n, _, rfl⟩ := List.mem_map.1 hx
      exact ⟨n, rfl⟩)
    (by rfl) (by simp) (by rfl) (by decide)
    (by
      simp [lacgfp8_propensity_eval, gsl_vector.size, N, R, L, Z, gsl_vector_set,
        gsl_vector_get])
  ⟨h.1, h.2.1⟩

/-- Claim C15: on a state of length 8 and a reaction index below 15,
`lacgfp8_state_update` succeeds and the state it leaves differs from the
state it was called on. -/
theorem state_update_changes_state (X : gsl_vector) (r : Nat)
    (hX : X.size = 8) (hr : r < 15) :
    (lacgfp8_state_update X r).1 = GSL_SUCCESS ∧ (lacgfp8_state_update X r).2 ≠ X ∧
      ∃ i : Nat, i < 8 ∧
        gsl_vector_get (lacgfp8_state_update X r).2 i ≠ gsl_vector_get X i := by
  refine ⟨(state_update_success_iff X r).2 ⟨hX, hr⟩, ?_, ?_⟩
  · obtain ⟨x0, x1, x2, x3, x4, x5, x6, x7, rfl⟩ := vec_of_length_eight X hX
    rw [state_update_explicit x0 x1 x2 x3 x4 x5 x6 x7 r hr]
    rcases index_cases_fifteen r hr with
      h | h | h | h | h | h | h | h | h | h | h | h | h | h | h <;>
      subst h <;>
      simp [vecAdd, listedDelta]
  · obtain ⟨x0, x1, x2, x3, x4, x5, x6, x7, rfl⟩ := vec_of_length_eight X hX
    rw [state_update_explicit x0 x1 x2 x3 x4 x5 x6 x7 r hr]
    rcases index_cases_fifteen r hr with
      h | h | h | h | h | h | h | h | h | h | h | h | h | h | h <;>
      subst h
    · exact ⟨0, by decide, by simp [vecAdd, listedDelta, gsl_vector_get]⟩
    · exact ⟨0, by decide, by simp [vecAdd, listedDelta, gsl_vector_get]⟩
    · exact ⟨1, by decide, by simp [vecAdd, listedDelta, gsl_vector_get]⟩
    · exact ⟨1, by decide, by simp [vecAdd, listedDelta, gsl_vector_get]⟩
    · exact ⟨1, by decide, by simp [vecAdd, listedDelta, gsl_vector_get]⟩
    · exact ⟨1, by decide, by simp [vecAdd, listedDelta, gsl_vector_get]⟩
    · exact ⟨2, by decide, by simp [vecAdd, listedDelta, gsl_vector_get]⟩
    · exact ⟨2, by decide, by simp [vecAdd, listedDelta, gsl_vector_get]⟩
    · exact ⟨5, by decide, by simp [vecAdd, listedDelta, gsl_vector_get]⟩
    · exact ⟨5, by decide, by simp [vecAdd, listedDelta, gsl_vector_get]⟩
    · exact ⟨5, by decide, by simp [vecAdd, listedDelta, gsl_vector_get]⟩
    · exact ⟨6, by decide, by simp [vecAdd, listedDelta, gsl_vector_get]⟩
    · exact ⟨6, by decide, by simp [vecAdd, listedDelta, gsl_vector_get]⟩
    · exact ⟨6, by decide, by simp [vecAdd, listedDelta, gsl_vector_get]⟩
    · exact ⟨7, by decide, by simp [vecAdd, listedDelta, gsl_vector_get]⟩

/-- Witness of C15 on the state `[0,0,0,50,0,0,0,0]` and reaction index 9. -/
theorem state_update_changes_state_witness :
    (lacgfp8_state_update [0, 0, 0, 50, 0, 0, 0, 0] 9).1 = GSL_SUCCESS ∧
      (lacgfp8_state_update [0, 0, 0, 50, 0, 0, 0, 0] 9).2 ≠ [0, 0, 0, 50, 0, 0, 0, 0] :=
  have h := state_update_changes_state [0, 0, 0, 50, 0, 0, 0, 0] 9 (by rfl) (by decide)
  ⟨h.1, h.2.1⟩

/-! ## Conservation laws -/

/-- Counterexample to C16 as stated, in double arithmetic: `2 ^ 53` is a finite
double, and on the state `[2 ^ 53, 0, 0, 0, 0, 0, 0, 0]` the production index 0
succeeds and leaves the state as it was (`2 ^ 53 + 1` rounds to `2 ^ 53`), so
no entry is raised by 1. -/
theorem production_lost_at_two_pow_53 :
    IsFiniteDouble (2 ^ 53) ∧
      lacgfp8_state_update_double
          [Double.fin (2 ^ 53), Double.fin 0, Double.fin 0, Double.fin 0, Double.fin 0,
            Double.fin 0, Double.fin 0, Double.fin 0] 0 =
        (GSL_SUCCESS,
          [Double.fin (2 ^ 53), Double.fin 0, Double.fin 0, Double.fin 0, Double.fin 0,
            Double.fin 0, Double.fin 0, Double.fin 0]) ∧
      ¬ ∃ i : Nat, i < 8 ∧
        values (lacgfp8_state_update_double
            [Double.fin (2 ^ 53), Double.fin 0, Double.fin 0, Double.fin 0, Double.fin 0,
              Double.fin 0, Double.fin 0, Double.fin 0] 0).2 =
          gsl_vector_set
            (values [Double.fin (2 ^ 53), Double.fin 0, Double.fin 0, Double.fin 0, Double.fin 0,
              Double.fin 0, Double.fin 0, Double.fin 0]) i
            (gsl_vector_get
              (values [Double.fin (2 ^ 53), Double.fin 0, Double.fin 0, Double.fin 0,
                Double.fin 0, Double.fin 0, Double.fin 0, Double.fin 0]) i + 1) := by
  have hrep : IsFiniteDouble (2 ^ 53) := by
    have := round_int_exact (2 ^ 53) (by norm_num)
    simpa [IsFiniteDouble] using this
  have hstep : lacgfp8_state_update_double
      [Double.fin (2 ^ 53), Double.fin 0, Double.fin 0, Double.fin 0, Double.fin 0,
        Double.fin 0, Double.fin 0, Double.fin 0] 0 =
      (GSL_SUCCESS,
        [Double.fin (2 ^ 53), Double.fin 0, Double.fin 0, Double.fin 0, Double.fin 0,
          Double.fin 0, Double.fin 0, Double.fin 0]) := by
    simp only [lacgfp8_state_update_double, gsl_vector_double.size, N, R, gsl_vector_double_set,
      gsl_vector_double_get, List.length_cons, List.length_nil, List.getD_cons_zero,
      List.set_cons_zero, add_fin_fin, round_tie_at_two_pow_53]
    simp
  refine ⟨hrep, hstep, ?_⟩
  rw [hstep]
  rintro ⟨i, hi, h⟩
  have hcases : i = 0 ∨ i = 1 ∨ i = 2 ∨ i = 3 ∨ i = 4 ∨ i = 5 ∨ i = 6 ∨ i = 7 := by omega
  rcases hcases with h0 | h0 | h0 | h0 | h0 | h0 | h0 | h0 <;>
    subst h0 <;>
    simp [values, Double.toRat, gsl_vector_set, gsl_vector_get] at h

/-- Claim C16, amended: on a state of length 8 whose entries are integers of
magnitude at most `2 ^ 53 - 2`, state update in double arithmetic leaves
finite entries and the LACI monomer-equivalent total `X[1] + 2 X[2] + 2 X[4]`
is unchanged for the reaction indices 4, 5, 6 and 7; for each of the indices
1, 3, 10, 12, 14 the new state is the old state with one entry lowered by
exactly 1; for each of the indices 0, 2, 8, 9, 11 the new state is the old
state with one entry raised by exactly 1. -/
theorem conservation_where_expected (Y : gsl_vector_double) (r : Nat)
    (hY : Y.size = 8) (hrange : ExactRange Y) :
    (r ∈ [4, 5, 6, 7] →
        AllFinite (lacgfp8_state_update_double Y r).2 ∧
          monomerTotal (values (lacgfp8_state_update_double Y r).2) =
            monomerTotal (values Y)) ∧
      (r ∈ [1, 3, 10, 12, 14] →
        AllFinite (lacgfp8_state_update_double Y r).2 ∧
          ∃ i : Nat, i < 8 ∧
            values (lacgfp8_state_update_double Y r).2 =
              gsl_vector_set (values Y) i (gsl_vector_get (values Y) i - 1)) ∧
      (r ∈ [0, 2, 8, 9, 11] →
        AllFinite (lacgfp8_state_update_double Y r).2 ∧
          ∃ i : Nat, i < 8 ∧
            values (lacgfp8_state_update_double Y r).2 =
              gsl_vector_set (values Y) i (gsl_vector_get (values Y) i + 1)) := by
  have hlt : ∀ l : List Nat, (∀ i ∈ l, i < 15) → r ∈ l → r < 15 := fun l hl hr => hl r hr
  refine ⟨?_, ?_, ?_⟩
  · intro hr
    have hr15 : r < 15 := hlt _ (by decide) hr
    obtain ⟨_, hfin, hsize, hval⟩ := state_update_double_refines Y r hY hr15 hrange
    rw [hval]
    exact ⟨hfin, (state_update_conservation_exact (values Y) r hsize).1 hr⟩
  · intro hr
    have hr15 : r < 15 := hlt _ (by decide) hr
    obtain ⟨_, hfin, hsize, hval⟩ := state_update_double_refines Y r hY hr15 hrange
    rw [hval]
    exact ⟨hfin, (state_update_conservation_exact (values Y) r hsize).2.1 hr⟩
  · intro hr
    have hr15 : r < 15 := hlt _ (by decide) hr
    obtain ⟨_, hfin, hsize, hval⟩ := state_update_double_refines Y r hY hr15 hrange
    rw [hval]
    exact ⟨hfin, (state_update_conservation_exact (values Y) r hsize).2.2 hr⟩

/-- Witness of the amended C16 on the state `[3,4,2,50,1,5,6,7]` and reaction
index 6 (binding of the dimer to the operator). -/
theorem conservation_where_expected_witness :
    monomerTotal (values (lacgfp8_state_update_double
        (List.map (fun n : Int => Double.fin (n : ℚ)) [3, 4, 2, 50, 1, 5, 6, 7]) 6).2) =
      monomerTotal (values (List.map (fun n : Int => Double.fin (n : ℚ))
        [3, 4, 2, 50, 1, 5, 6, 7])) :=
  ((conservation_where_expected
    (List.map (fun n : Int => Double.fin (n : ℚ)) [3, 4, 2, 50, 1, 5, 6, 7]) 6 (by rfl)
    (small_counts_in_range _ (by
      intro n hn
      simp only [List.mem_cons, List.mem_nil_iff, or_false] at hn
      rcases hn with h | h | h | h | h | h | h | h <;> subst h <;> norm_num))).1
    (by decide)).2

/-- Counterexample to C18 as stated, in double arithmetic: on the state
`[0, 0, 1, 50, 2 ^ 53, 0, 0, 0]` reaction index 6 succeeds, lowers entry 3 to
49 and leaves entry 4 at `2 ^ 53` (`2 ^ 53 + 1` rounds to `2 ^ 53`), so the
sum of the entries 3 and 4 drops by 1. -/
theorem promoter_total_lost_at_two_pow_53 :
    IsFiniteDouble (2 ^ 53) ∧
      lacgfp8_state_update_double
          [Double.fin 0, Double.fin 0, Double.fin 1, Double.fin 50, Double.fin (2 ^ 53),
            Double.fin 0, Double.fin 0, Double.fin 0] 6 =
        (GSL_SUCCESS,
          [Double.fin 0, Double.fin 0, Double.fin 0, Double.fin 49, Double.fin (2 ^ 53),
            Double.fin 0, Double.fin 0, Double.fin 0]) ∧
      promoterTotal (values (lacgfp8_state_update_double
          [Double.fin 0, Double.fin 0, Double.fin 1, Double.fin 50, Double.fin (2 ^ 53),
            Double.fin 0, Double.fin 0, Double.fin 0] 6).2) ≠
        promoterTotal (values
          [Double.fin 0, Double.fin 0, Double.fin 1, Double.fin 50, Double.fin (2 ^ 53),
            Double.fin 0, Double.fin 0, Double.fin 0]) := by
  have hrep : IsFiniteDouble (2 ^ 53) := by
    have := round_int_exact (2 ^ 53) (by norm_num)
    simpa [IsFiniteDouble] using this
  have h1 : Double.round (1 + -1) = Double.fin 0 := by
    rw [add_neg_cancel]
    exact round_zero
  have h50 : Double.round (50 + -1) = Double.fin 49 := by
    have e : (50 : ℚ) + -1 = 49 := by norm_num
    rw [e]
    exact round_49
  have hstep : lacgfp8_state_update_double
      [Double.fin 0, Double.fin 0, Double.fin 1, Double.fin 50, Double.fin (2 ^ 53),
        Double.fin 0, Double.fin 0, Double.fin 0] 6 =
      (GSL_SUCCESS,
        [Double.fin 0, Double.fin 0, Double.fin 0, Double.fin 49, Double.fin (2 ^ 53),
          Double.fin 0, Double.fin 0, Double.fin 0]) := by
    simp only [lacgfp8_state_update_double, gsl_vector_double.size, N, R, gsl_vector_double_set,
      gsl_vector_double_get, List.length_cons, List.length_nil, List.getD_cons_zero,
      List.getD_cons_succ, List.set_cons_zero, List.set_cons_succ, add_fin_fin,
      round_tie_at_two_pow_53, h1, h50]
    simp
  refine ⟨hrep, hstep, ?_⟩
  rw [hstep]
  simp [promoterTotal, values, Double.toRat, gsl_vector_get]

/-- Claim C18, amended: on a state of length 8 whose entries are integers of
magnitude at most `2 ^ 53 - 2` and a reaction index below 15, state update in
double arithmetic succeeds, leaves finite entries, and the sum of the entries
of index 3 (free promoter) and index 4 (occupied promoter) is the same after
the call as before it. -/
theorem promoter_total_conserved (Y : gsl_vector_double) (r : Nat)
    (hY : Y.size = 8) (hr : r < 15) (hrange : ExactRange Y) :
    (lacgfp8_state_update_double Y r).1 = GSL_SUCCESS ∧
      AllFinite (lacgfp8_state_update_double Y r).2 ∧
      gsl_vector_get (values (lacgfp8_state_update_double Y r).2) 3 +
          gsl_vector_get (values (lacgfp8_state_update_double Y r).2) 4 =
        gsl_vector_get (values Y) 3 + gsl_vector_get (values Y) 4 := by
  obtain ⟨hstatus, hfin, hsize, hval⟩ := state_update_double_refines Y r hY hr hrange
  rw [hval]
  exact ⟨hstatus, hfin, state_update_keeps_promoter_total (values Y) r hsize hr⟩

/-- Witness of the amended C18 on the state `[3,4,2,50,1,5,6,7]` and reaction
index 7 (release of the dimer from the operator). -/
theorem promoter_total_conserved_witness :
    (lacgfp8_state_update_double
        (List.map (fun n : Int => Double.fin (n : ℚ)) [3, 4, 2, 50, 1, 5, 6, 7]) 7).1 =
        GSL_SUCCESS ∧
      AllFinite (lacgfp8_state_update_double
        (List.map (fun n : Int => Double.fin (n : ℚ)) [3, 4, 2, 50, 1, 5, 6, 7]) 7).2 ∧
      gsl_vector_get (values (lacgfp8_state_update_double
            (List.map (fun n : Int => Double.fin (n : ℚ)) [3, 4, 2, 50, 1, 5, 6, 7]) 7).2) 3 +
          gsl_vector_get (values (lacgfp8_state_update_double
            (List.map (fun n : Int => Double.fin (n : ℚ)) [3, 4, 2, 50, 1, 5, 6, 7]) 7).2) 4 =
        gsl_vector_get
            (values (List.map (fun n : Int => Double.fin (n : ℚ)) [3, 4, 2, 50, 1, 5, 6, 7])) 3 +
          gsl_vector_get
            (values (List.map (fun n : Int => Double.fin (n : ℚ)) [3, 4, 2, 50, 1, 5, 6, 7])) 4 :=
  promoter_total_conserved
    (List.map (fun n : Int => Double.fin (n : ℚ)) [3, 4, 2, 50, 1, 5, 6, 7]) 7 (by rfl)
    (by decide)
    (small_counts_in_range _ (by
      intro n hn
      simp only [List.mem_cons, List.mem_nil_iff, or_false] at hn
      rcases hn with h | h | h | h | h | h | h | h <;> subst h <;> norm_num))

/-! ## Negative input -/

/-- Claim C17: there are a state of 8 non-negative integer counts,
non-negative rate constants `k1..k15` and a negative input `u1` such that on
every buffer of length 15 `lacgfp8_propensity_eval` returns success and the
entry of index 3 it leaves is `(k4+k5*u1)*X[1]` and strictly negative (in
double arithmetic the entry is the double -1); and entry 3 is the only entry
that depends on `u1`: two parameter vectors with the same rate constants and
different inputs give the same value in every other entry. -/
theorem negative_input_negative_propensity :
    (∃ X params : gsl_vector,
        X.size = 8 ∧ IsCountState X ∧ params.size = 16 ∧
          (∀ i : Nat, i < 15 → 0 ≤ gsl_vector_get params i) ∧ gsl_vector_get params 15 < 0 ∧
          (∀ prop : gsl_vector, prop.size = 15 →
            (lacgfp8_propensity_eval X params prop).1 = GSL_SUCCESS ∧
              gsl_vector_get (lacgfp8_propensity_eval X params prop).2 3 =
                (gsl_vector_get params 3 + gsl_vector_get params 4 * gsl_vector_get params 15) *
                  gsl_vector_get X 1 ∧
              gsl_vector_get (lacgfp8_propensity_eval X params prop).2 3 < 0) ∧
          ∀ prop : gsl_vector_double, prop.size = 15 →
            (lacgfp8_propensity_eval_double (X.map Double.fin) (params.map Double.fin) prop).1 =
                GSL_SUCCESS ∧
              gsl_vector_double_get
                  (lacgfp8_propensity_eval_double (X.map Double.fin) (params.map Double.fin)
                    prop).2 3 =
                Double.fin (-1)) ∧
      ∀ (X ks prop : gsl_vector) (u v : ℚ), X.size = 8 → ks.size = 15 → prop.size = 15 →
        ∀ i : Nat, i < 15 → i ≠ 3 →
          gsl_vector_get (lacgfp8_propensity_eval X (ks ++ [u]) prop).2 i =
            gsl_vector_get (lacgfp8_propensity_eval X (ks ++ [v]) prop).2 i := by
  refine ⟨⟨List.map Nat.cast [0, 1, 0, 50, 0, 0, 0, 0],
    [1, 1, 1, 0, 1, 1, 1, 1, 1, 1, 1, 1, 1, 1, 1, -1], by rfl, ?_, by rfl, ?_, ?_, ?_, ?_⟩, ?_⟩
  · intro x hx
    obtain ⟨n, _, rfl⟩ := List.mem_map.1 hx
    exact ⟨n, rfl⟩
  · intro i hi
    rcases index_cases_fifteen i hi with
      h | h | h | h | h | h | h | h | h | h | h | h | h | h | h <;>
      subst h <;>
      simp [gsl_vector_get]
  · simp [gsl_vector_get]
  · intro prop ha
    obtain ⟨a0, a1, a2, a3, a4, a5, a6, a7, a8, a9, a10, a11, a12, a13, a14, rfl⟩ :=
      vec_of_length_fifteen prop ha
    simp only [List.map]
    rw [propensity_eval_explicit]
    refine ⟨rfl, ?_, ?_⟩ <;> simp [gsl_vector_get]
  · intro prop ha
    obtain ⟨a0, a1, a2, a3, a4, a5, a6, a7, a8, a9, a10, a11, a12, a13, a14, rfl⟩ :=
      dvec_of_length_fifteen prop ha
    have hneg : Double.round (-1) = Double.fin (-1) := by
      have := round_int_exact (-1) (by norm_num)
      simpa using this
    simp only [List.map]
    rw [propensity_eval_double_explicit]
    refine ⟨rfl, ?_⟩
    simp [gsl_vector_double_get, mul_fin_fin, add_fin_fin, hneg]
  · intro X ks prop u v hX hk ha i hi hne
    obtain ⟨x0, x1, x2, x3, x4, x5, x6, x7, rfl⟩ := vec_of_length_eight X hX
    obtain ⟨k1, k2, k3, k4, k5, k6, k7, k8, k9, k10, k11, k12, k13, k14, k15, rfl⟩ :=
      vec_of_length_fifteen ks hk
    obtain ⟨a0, a1, a2, a3, a4, a5, a6, a7, a8, a9, a10, a11, a12, a13, a14, rfl⟩ :=
      vec_of_length_fifteen prop ha
    simp only [List.cons_append, List.nil_append]
    rw [propensity_eval_explicit, propensity_eval_explicit]
    rcases index_cases_fifteen i hi with
      h | h | h | h | h | h | h | h | h | h | h | h | h | h | h <;>
      subst h <;>
      first
        | exact absurd rfl hne
        | simp [gsl_vector_get]

/-! ## Reachable states -/

/-- Claim C19: start from the state that `lacgfp8_initial_conditions` samples
with draws below their bounds, fix 16 non-negative parameters, and fire any
finite sequence of reaction indices each of which has strictly positive
propensity in the state it is fired from.  Then every state along the
sequence has 8 entries, all of them non-negative integers, the sum of its
entries of index 3 and 4 equals entry 3 of the starting state and lies
between 1 and 201, and every update of the sequence returns success. -/
theorem reachable_states_invariant {σ : Type} (draw : Rng σ) (X0 params : gsl_vector) (r : σ)
    (rs : List Nat) (hdraw : InRange draw) (hX : X0.size = 8)
    (hp : params.size = 16) (hpos : ∀ k ∈ params, 0 ≤ k)
    (hfire : Fireable params (lacgfp8_initial_conditions draw X0 r).2.1 rs) :
    (lacgfp8_initial_conditions draw X0 r).1 = GSL_SUCCESS ∧
      (∀ Y ∈ trajectory (lacgfp8_initial_conditions draw X0 r).2.1 rs,
        Y.size = 8 ∧ (∀ y ∈ Y, ∃ n : Nat, y = (n : ℚ)) ∧
          gsl_vector_get Y 3 + gsl_vector_get Y 4 =
            gsl_vector_get (lacgfp8_initial_conditions draw X0 r).2.1 3 ∧
          1 ≤ gsl_vector_get Y 3 + gsl_vector_get Y 4 ∧
          gsl_vector_get Y 3 + gsl_vector_get Y 4 ≤ 201) ∧
      statuses (lacgfp8_initial_conditions draw X0 r).2.1 rs =
        List.replicate rs.length GSL_SUCCESS := by
  obtain ⟨x0, x1, x2, x3, x4, x5, x6, x7, rfl⟩ := vec_of_length_eight X0 hX
  rw [initial_conditions_explicit] at hfire ⊢
  have b3 := hdraw (draw (draw r 6).2 11).2 101 (by decide)
  have b4 := hdraw (draw (draw (draw r 6).2 11).2 101).2 101 (by decide)
  generalize (draw r 6).1 = d1 at hfire ⊢
  generalize (draw (draw r 6).2 11).1 = d2 at hfire ⊢
  generalize (draw (draw (draw r 6).2 11).2 101).1 = d3 at hfire b3 ⊢
  generalize (draw (draw (draw (draw r 6).2 11).2 101).2 101).1 = d4 at hfire b4 ⊢
  simp only at hfire ⊢
  have hcount : IsCountState [(d1 : ℚ), (d2 : ℚ), 0, ((1 + d3 + d4 : Nat) : ℚ), 0, 0, 0, 0] := by
    intro x hx
    simp only [List.mem_cons, List.mem_nil_iff, or_false] at hx
    rcases hx with h | h | h | h | h | h | h | h <;> subst h
    · exact ⟨d1, rfl⟩
    · exact ⟨d2, rfl⟩
    · exact ⟨0, by simp⟩
    · exact ⟨1 + d3 + d4, rfl⟩
    · exact ⟨0, by simp⟩
    · exact ⟨0, by simp⟩
    · exact ⟨0, by simp⟩
    · exact ⟨0, by simp⟩
  have htotal : promoterTotal [(d1 : ℚ), (d2 : ℚ), 0, ((1 + d3 + d4 : Nat) : ℚ), 0, 0, 0, 0] =
      ((1 + d3 + d4 : Nat) : ℚ) := by
    simp [promoterTotal, gsl_vector_get]
  have hinv := trajectory_invariant params hp hpos _ rs _ (by rfl) hcount htotal hfire
  have hlow : (1 : ℚ) ≤ ((1 + d3 + d4 : Nat) : ℚ) := by
    have : 1 ≤ 1 + d3 + d4 := by omega
    exact_mod_cast this
  have hhigh : ((1 + d3 + d4 : Nat) : ℚ) ≤ 201 := by
    have : 1 + d3 + d4 ≤ 201 := by omega
    exact_mod_cast this
  refine ⟨trivial, ?_, hinv.2⟩
  intro Y hY
  obtain ⟨hsize, hc, ht⟩ := hinv.1 Y hY
  have ht2 : gsl_vector_get Y 3 + gsl_vector_get Y 4 = ((1 + d3 + d4 : Nat) : ℚ) := ht
  refine ⟨hsize, hc, ?_, ?_, ?_⟩
  · rw [ht2]
    simp [gsl_vector_get]
  · rw [ht2]
    exact hlow
  · rw [ht2]
    exact hhigh

/-- Witness of C19: the list-reading source with the draws 1, 2, 3, 4 samples
the state `[1,2,0,8,0,0,0,0]`; dimerization (index 4) and then binding to
the operator (index 6) are fired with positive propensity. -/
theorem reachable_states_invariant_witness :
    statuses (lacgfp8_initial_conditions listRng [9, 9, 9, 9, 9, 9, 9, 9] [1, 2, 3, 4]).2.1
        [4, 6] =
      List.replicate [4, 6].length GSL_SUCCESS :=
  (reachable_states_invariant listRng [9, 9, 9, 9, 9, 9, 9, 9]
    [1, 2, 3, 4, 5, 6, 7, 8, 9, 10, 11, 12, 13, 14, 15, 0] [1, 2, 3, 4] [4, 6]
    (fun _ _ hn => Nat.mod_lt _ hn) (by rfl) (by rfl) (by simp)
    (by
      simp [Fireable, propensityOf, lacgfp8_initial_conditions, listRng, lacgfp8_state_update,
        lacgfp8_propensity_eval, gsl_vector.size, N, R, L, Z, gsl_vector_set,
        gsl_vector_get])).2.2

/-! ## Order of firings -/

/-- Claim C20: on a state of length 8 and two reaction indices below 15,
`lacgfp8_state_update` with the one index and then the other leaves the same
state as with the other and then the one; and two sequences of firings in
which every reaction index occurs the same number of times leave the same
state. -/
theorem state_updates_commute (X : gsl_vector) (r s : Nat)
    (_hX : X.size = 8) (_hr : r < 15) (_hs : s < 15) :
    (lacgfp8_state_update (lacgfp8_state_update X r).2 s).2 =
        (lacgfp8_state_update (lacgfp8_state_update X s).2 r).2 ∧
      ∀ rs ss : List Nat, (∀ i : Nat, rs.count i = ss.count i) →
        fireAll X rs = fireAll X ss :=
  ⟨state_update_comm X r s, fun rs ss h => fireAll_perm X rs ss (List.perm_iff_count.2 h)⟩

/-- Witness of C20 on the state `[3,4,2,50,1,5,6,7]` and the reaction indices
4 and 6. -/
theorem state_updates_commute_witness :
    (lacgfp8_state_update (lacgfp8_state_update [3, 4, 2, 50, 1, 5, 6, 7] 4).2 6).2 =
      (lacgfp8_state_update (lacgfp8_state_update [3, 4, 2, 50, 1, 5, 6, 7] 6).2 4).2 :=
  (state_updates_commute [3, 4, 2, 50, 1, 5, 6, 7] 4 6 (by rfl) (by decide) (by decide)).1

end LacGfp8
